import Mathlib

/-!
# Collimator jaw hit detection and frame transforms (xcoll)

Shallow embedding of `collimator_geometry.h`:
`hit_jaws_check_and_transform` and `hit_jaws_transform_back`.

Floating point numbers are modelled by an arbitrary linearly ordered field `α`
(exact arithmetic); `ℚ` gives an executable instance, `ℝ` the intended one.
The C library functions `sin`, `cos`, `asin` are the fields of a `Trig` record.
-/

namespace Xcoll

/-! ## Data model -/

/-- Modelled from the spec: the `LocalParticle` type is not declared in the sources.
Transverse positions `x`, `y`, their conjugate slopes `px`, `py`, the longitudinal
coordinate `s`, the factor `rpp` turning `px` into the slope `xp`, and the survival
flag `state`. -/
@[ext]
structure LocalParticle (α : Type) where
  x : α
  px : α
  y : α
  py : α
  s : α
  rpp : α
  state : Int

/-- Modelled from the spec: the tags `XC_ENTER_JAW_L` / `XC_ENTER_JAW_R` of the
interaction record are constants declared outside the sources. -/
inductive InteractionType where
  | XC_ENTER_JAW_L
  | XC_ENTER_JAW_R
deriving DecidableEq

/-- Modelled from the spec: one appended entry of `InteractionRecordData`, the tag and
the particle as it was when logged. -/
structure InteractionEvent (α : Type) where
  tag : InteractionType
  part : LocalParticle α

/-- The struct `CollimatorGeometry_`. The record handle `record` / `record_index` is
kept outside (the record contents are threaded through the functions). -/
structure CollimatorGeometry (α : Type) where
  jaw_LU : α
  jaw_LD : α
  jaw_RU : α
  jaw_RD : α
  length : α
  side : Int
  sin_zL : α
  cos_zL : α
  sin_zR : α
  cos_zR : α
  sin_zDiff : α
  cos_zDiff : α
  jaws_parallel : Int
  sin_yL : α
  cos_yL : α
  tan_yL : α
  sin_yR : α
  cos_yR : α
  tan_yR : α
  record_touches : Int

/-- The libm functions used by the code, as parameters of the model. -/
structure Trig (α : Type) where
  sin : α → α
  cos : α → α
  asin : α → α

/-- Type of `get_s_of_first_crossing_with_open_polygon(part_x, part_tan, jaw_s, jaw_x, n,
tan_tilt, side)`; the solver itself is a parameter of the model. The two-element arrays
`jaw_s`, `jaw_x` are pairs. -/
abbrev CrossingSolver (α : Type) := α → α → α × α → α × α → Nat → α → Int → α

section Model

variable {α : Type} [LinearOrderedField α]

/-! ## Particle accessors and single-particle maps -/

/-- Modelled from the spec: `LocalParticle_get_x`, reads the transverse position. -/
def LocalParticle_get_x (part : LocalParticle α) : α := part.x

/-- Modelled from the spec: `LocalParticle_get_xp`, the transverse slope (linear
definition, the build without `XTRACK_USE_EXACT_DRIFTS`). -/
def LocalParticle_get_xp (part : LocalParticle α) : α := part.px * part.rpp

/-- Modelled from the spec: slope in the other transverse plane, used by the drift. -/
def LocalParticle_get_yp (part : LocalParticle α) : α := part.py * part.rpp

/-- Modelled from the spec: `LocalParticle_get_s`. -/
def LocalParticle_get_s (part : LocalParticle α) : α := part.s

/-- Modelled from the spec: `LocalParticle_set_s`. -/
def LocalParticle_set_s (part : LocalParticle α) (s : α) : LocalParticle α :=
  { part with s := s }

/-- Modelled from the spec: `LocalParticle_add_to_s`. -/
def LocalParticle_add_to_s (part : LocalParticle α) (ds : α) : LocalParticle α :=
  { part with s := part.s + ds }

/-- Modelled from the spec: `LocalParticle_get_state`, the survival flag. -/
def LocalParticle_get_state (part : LocalParticle α) : Int := part.state

/-- Modelled from the spec: `LocalParticle_scale_x`. -/
def LocalParticle_scale_x (part : LocalParticle α) (k : α) : LocalParticle α :=
  { part with x := part.x * k }

/-- Modelled from the spec: `LocalParticle_scale_px`. -/
def LocalParticle_scale_px (part : LocalParticle α) (k : α) : LocalParticle α :=
  { part with px := part.px * k }

/-- Modelled from the spec: `SRotation_single_particle`, rotation of positions and slopes
in the transverse plane by the angle with the given sine and cosine. -/
def SRotation_single_particle (part : LocalParticle α) (sin_z cos_z : α) :
    LocalParticle α :=
  { part with
    x := cos_z * part.x + sin_z * part.y
    y := -sin_z * part.x + cos_z * part.y
    px := cos_z * part.px + sin_z * part.py
    py := -sin_z * part.px + cos_z * part.py }

/-- Modelled from the spec: `Drift_single_particle`, advance the longitudinal coordinate
by `length` holding the slope fixed. -/
def Drift_single_particle (part : LocalParticle α) (length : α) : LocalParticle α :=
  { part with
    x := part.x + LocalParticle_get_xp part * length
    y := part.y + LocalParticle_get_yp part * length
    s := part.s + length }

/-- Modelled from the spec: `XYShift_single_particle`, shift of the transverse origin. -/
def XYShift_single_particle (part : LocalParticle α) (dx dy : α) : LocalParticle α :=
  { part with x := part.x - dx, y := part.y - dy }

/-- Modelled from the spec: `YRotation_single_particle_rotate_only`, rotate `(x, s)` into
the frame tilted by `angle`; the particle gets the new `x`, the new longitudinal
coordinate is returned. -/
def YRotation_single_particle_rotate_only (T : Trig α) (part : LocalParticle α)
    (s angle : α) : LocalParticle α × α :=
  let x := LocalParticle_get_x part
  let sin_y := T.sin angle
  let cos_y := T.cos angle
  ({ part with x := x * cos_y - s * sin_y }, x * sin_y + s * cos_y)

/-- Modelled from the spec: `InteractionRecordData_log`, append one tagged event for the
particle to the record. -/
def InteractionRecordData_log (record : List (InteractionEvent α))
    (part : LocalParticle α) (tag : InteractionType) : List (InteractionEvent α) :=
  record ++ [⟨tag, part⟩]

/-! ## `hit_jaws_check_and_transform` -/

/-- Local variables of `hit_jaws_check_and_transform` together with the particle. -/
structure HitLocals (α : Type) where
  part : LocalParticle α
  part_x : α
  part_tan : α
  is_hit : Int
  s_L : α
  s_R : α

/-- Lines 65-66: the vertices `jaw_x[0]`, `jaw_x[1]` of the left jaw polygon. -/
def left_jaw_x (cg : CollimatorGeometry α) : α × α := (cg.jaw_LU, cg.jaw_LD)

/-- Lines 67-68: the vertices `jaw_s[0]`, `jaw_s[1]` of the left jaw polygon. -/
def left_jaw_s (cg : CollimatorGeometry α) : α × α :=
  (cg.length / 2 * (1 - cg.cos_yL), cg.length / 2 * (1 + cg.cos_yL))

/-- Lines 105-106: the vertices `jaw_x[0]`, `jaw_x[1]` of the right jaw polygon. -/
def right_jaw_x (cg : CollimatorGeometry α) : α × α := (cg.jaw_RU, cg.jaw_RD)

/-- Lines 107-108: the vertices `jaw_s[0]`, `jaw_s[1]` of the right jaw polygon. -/
def right_jaw_s (cg : CollimatorGeometry α) : α × α :=
  (cg.length / 2 * (1 - cg.cos_yR), cg.length / 2 * (1 + cg.cos_yR))

/-- Lines 57-76: the first hit on the left jaw (if not a right-sided collimator). -/
def check_left_jaw (solver : CrossingSolver α) (cg : CollimatorGeometry α)
    (v : HitLocals α) : HitLocals α :=
  if cg.side ≠ -1 then
    let part := SRotation_single_particle v.part cg.sin_zL cg.cos_zL
    let part_x := LocalParticle_get_x part
    let part_tan := LocalParticle_get_xp part
    let jaw_x := left_jaw_x cg
    let jaw_s := left_jaw_s cg
    let s_L := solver part_x part_tan jaw_s jaw_x 2 cg.tan_yL 1
    if s_L < 1e20 then
      { v with part := part, part_x := part_x, part_tan := part_tan, s_L := s_L, is_hit := 1 }
    else if cg.side = 1 then
      { v with part := SRotation_single_particle part (-cg.sin_zL) cg.cos_zL,
               part_x := part_x, part_tan := part_tan, s_L := s_L }
    else
      { v with part := part, part_x := part_x, part_tan := part_tan, s_L := s_L }
  else v

/-- Lines 85-121: the first hit on the right jaw (if not a left-sided collimator), the
resolution between the two jaws and the rotation back. -/
def check_right_jaw (solver : CrossingSolver α) (cg : CollimatorGeometry α)
    (v : HitLocals α) : HitLocals α :=
  if cg.side ≠ 1 then
    let v1 : HitLocals α :=
      if cg.side = -1 then
        let part := SRotation_single_particle v.part cg.sin_zR cg.cos_zR
        { v with part := part, part_x := LocalParticle_get_x part,
                 part_tan := LocalParticle_get_xp part }
      else if cg.jaws_parallel = 0 then
        let part := SRotation_single_particle v.part cg.sin_zDiff cg.cos_zDiff
        { v with part := part, part_x := LocalParticle_get_x part,
                 part_tan := LocalParticle_get_xp part }
      else v
    let jaw_x := right_jaw_x cg
    let jaw_s := right_jaw_s cg
    let s_R := solver v1.part_x v1.part_tan jaw_s jaw_x 2 cg.tan_yR (-1)
    if s_R < 1e20 ∧ s_R < v1.s_L then
      { v1 with s_R := s_R, is_hit := -1 }
    else if v1.is_hit = 1 then
      if cg.jaws_parallel = 0 then
        { v1 with s_R := s_R,
                  part := SRotation_single_particle v1.part (-cg.sin_zDiff) cg.cos_zDiff }
      else
        { v1 with s_R := s_R }
    else
      { v1 with s_R := s_R,
                part := SRotation_single_particle v1.part (-cg.sin_zR) cg.cos_zR }
  else v

/-- Result of `hit_jaws_check_and_transform`: the return value, the particle and the
interaction record after the call. -/
structure HitResult (α : Type) where
  is_hit : Int
  part : LocalParticle α
  record : List (InteractionEvent α)

/-- Lines 132-143: drift to the impact on the left jaw and move to its tilted frame. -/
def move_to_left_jaw (T : Trig α) (cg : CollimatorGeometry α) (part : LocalParticle α)
    (s_L : α) : LocalParticle α :=
  let part := Drift_single_particle part s_L
  let part := XYShift_single_particle part cg.jaw_LU 0
  let part := LocalParticle_add_to_s part (-cg.length / 2 * (1 - cg.cos_yL))
  let r := YRotation_single_particle_rotate_only T part (LocalParticle_get_s part)
    (T.asin cg.sin_yL)
  LocalParticle_set_s r.1 r.2

/-- Lines 145-156: drift to the impact on the right jaw, move to its tilted frame and
mirror `x`. -/
def move_to_right_jaw (T : Trig α) (cg : CollimatorGeometry α) (part : LocalParticle α)
    (s_R : α) : LocalParticle α :=
  let part := Drift_single_particle part s_R
  let part := XYShift_single_particle part cg.jaw_RU 0
  let part := LocalParticle_add_to_s part (-cg.length / 2 * (1 - cg.cos_yR))
  let r := YRotation_single_particle_rotate_only T part (LocalParticle_get_s part)
    (T.asin cg.sin_yR)
  let part := LocalParticle_set_s r.1 r.2
  let part := LocalParticle_scale_x part (-1)
  LocalParticle_scale_px part (-1)

/-- Lines 131-165: drift to the impact position or the end, move to the jaw frame if
relevant, log the touch. -/
def drift_and_move_to_jaw (T : Trig α) (cg : CollimatorGeometry α) (v : HitLocals α)
    (record : List (InteractionEvent α)) : HitResult α :=
  if v.is_hit = 1 then
    let part := move_to_left_jaw T cg v.part v.s_L
    if cg.record_touches ≠ 0 then
      ⟨v.is_hit, part, InteractionRecordData_log record part .XC_ENTER_JAW_L⟩
    else ⟨v.is_hit, part, record⟩
  else if v.is_hit = -1 then
    let part := move_to_right_jaw T cg v.part v.s_R
    if cg.record_touches ≠ 0 then
      ⟨v.is_hit, part, InteractionRecordData_log record part .XC_ENTER_JAW_R⟩
    else ⟨v.is_hit, part, record⟩
  else
    ⟨v.is_hit, Drift_single_particle v.part cg.length, record⟩

/-- Initial values of the locals: `is_hit = 0`, `s_L = s_R = 1.e21`; `part_x` and
`part_tan` are written before they are read. -/
def initial_locals (part : LocalParticle α) : HitLocals α :=
  { part := part, part_x := 0, part_tan := 0, is_hit := 0, s_L := 1e21, s_R := 1e21 }

/-- Locals after both jaw checks (line 121). -/
def jaw_checks (solver : CrossingSolver α) (part : LocalParticle α)
    (cg : CollimatorGeometry α) : HitLocals α :=
  check_right_jaw solver cg (check_left_jaw solver cg (initial_locals part))

/-- The function `hit_jaws_check_and_transform`. -/
def hit_jaws_check_and_transform (T : Trig α) (solver : CrossingSolver α)
    (part : LocalParticle α) (cg : CollimatorGeometry α)
    (record : List (InteractionEvent α)) : HitResult α :=
  drift_and_move_to_jaw T cg (jaw_checks solver part cg) record

/-! ## `hit_jaws_transform_back` -/

/-- Lines 172-177: rotate back from the tilt of the left jaw and shift the reference
frame back from the jaw corner LU. -/
def move_from_left_jaw (T : Trig α) (cg : CollimatorGeometry α) (part : LocalParticle α) :
    LocalParticle α :=
  let r := YRotation_single_particle_rotate_only T part (LocalParticle_get_s part)
    (-T.asin cg.sin_yL)
  let part := LocalParticle_set_s r.1 r.2
  let part := XYShift_single_particle part (-cg.jaw_LU) 0
  LocalParticle_add_to_s part (cg.length / 2 * (1 - cg.cos_yL))

/-- Lines 185-193: mirror back, rotate back from the tilt of the right jaw and shift the
reference frame back from the jaw corner RU. -/
def move_from_right_jaw (T : Trig α) (cg : CollimatorGeometry α) (part : LocalParticle α) :
    LocalParticle α :=
  let part := LocalParticle_scale_x part (-1)
  let part := LocalParticle_scale_px part (-1)
  let r := YRotation_single_particle_rotate_only T part (LocalParticle_get_s part)
    (-T.asin cg.sin_yR)
  let part := LocalParticle_set_s r.1 r.2
  let part := XYShift_single_particle part (-cg.jaw_RU) 0
  LocalParticle_add_to_s part (cg.length / 2 * (1 - cg.cos_yR))

/-- Lines 178-181 and 194-197: if the particle survived, drift to the end of the
element. -/
def drift_to_end (cg : CollimatorGeometry α) (part : LocalParticle α) : LocalParticle α :=
  if LocalParticle_get_state part > 0 then
    Drift_single_particle part (cg.length - LocalParticle_get_s part)
  else part

/-- The function `hit_jaws_transform_back`. -/
def hit_jaws_transform_back (T : Trig α) (is_hit : Int) (part : LocalParticle α)
    (cg : CollimatorGeometry α) : LocalParticle α :=
  if is_hit = 1 then
    SRotation_single_particle (drift_to_end cg (move_from_left_jaw T cg part))
      (-cg.sin_zL) cg.cos_zL
  else if is_hit = -1 then
    SRotation_single_particle (drift_to_end cg (move_from_right_jaw T cg part))
      (-cg.sin_zR) cg.cos_zR
  else part

/-! ## Solver results as seen by the resolution rule -/

/-- The left-jaw solver call of line 69, on the particle rotated into the left skew
frame. -/
def left_crossing (solver : CrossingSolver α) (part : LocalParticle α)
    (cg : CollimatorGeometry α) : α :=
  let p := SRotation_single_particle part cg.sin_zL cg.cos_zL
  solver (LocalParticle_get_x p) (LocalParticle_get_xp p) (left_jaw_s cg) (left_jaw_x cg) 2
    cg.tan_yL 1

/-- The particle whose position and slope are handed to the right-jaw solver call:
rotated by `zR` from the lab frame for a right-sided collimator, otherwise the left
frame, rotated further by `zDiff` unless the jaws are parallel. -/
def right_frame (part : LocalParticle α) (cg : CollimatorGeometry α) : LocalParticle α :=
  if cg.side = -1 then SRotation_single_particle part cg.sin_zR cg.cos_zR
  else if cg.jaws_parallel = 0 then
    SRotation_single_particle (SRotation_single_particle part cg.sin_zL cg.cos_zL)
      cg.sin_zDiff cg.cos_zDiff
  else SRotation_single_particle part cg.sin_zL cg.cos_zL

/-- The right-jaw solver call of line 109. -/
def right_crossing (solver : CrossingSolver α) (part : LocalParticle α)
    (cg : CollimatorGeometry α) : α :=
  let p := right_frame part cg
  solver (LocalParticle_get_x p) (LocalParticle_get_xp p) (right_jaw_s cg) (right_jaw_x cg) 2
    cg.tan_yR (-1)

/-- The value of `s_L` at the resolution: the solver result, or the default `1.e21`
when there is no left jaw. -/
def s_L_of (solver : CrossingSolver α) (part : LocalParticle α)
    (cg : CollimatorGeometry α) : α :=
  if cg.side = -1 then 1e21 else left_crossing solver part cg

/-- The value of `s_R` at the resolution: the solver result, or the default `1.e21`
when there is no right jaw. -/
def s_R_of (solver : CrossingSolver α) (part : LocalParticle α)
    (cg : CollimatorGeometry α) : α :=
  if cg.side = 1 then 1e21 else right_crossing solver part cg

/-! ## Initial values of `s_L`, `s_R` as parameters -/

/-- The locals of lines 49-54 with the initial values of `s_L` and `s_R` as parameters
(`initial_locals` is the instance `1.e21`, `1.e21`). -/
def locals_with_defaults (part : LocalParticle α) (dL dR : α) : HitLocals α :=
  { part := part, part_x := 0, part_tan := 0, is_hit := 0, s_L := dL, s_R := dR }

/-- Both jaw checks run from `locals_with_defaults`. -/
def jaw_checks_with (solver : CrossingSolver α) (part : LocalParticle α)
    (cg : CollimatorGeometry α) (dL dR : α) : HitLocals α :=
  check_right_jaw solver cg (check_left_jaw solver cg (locals_with_defaults part dL dR))

/-- The function `hit_jaws_check_and_transform` with the two initial values replaced. -/
def hit_jaws_with_defaults (T : Trig α) (solver : CrossingSolver α)
    (part : LocalParticle α) (cg : CollimatorGeometry α)
    (record : List (InteractionEvent α)) (dL dR : α) : HitResult α :=
  drift_and_move_to_jaw T cg (jaw_checks_with solver part cg dL dR) record

/-- The value of `s_L` at the resolution when the initial value is `dL`. -/
def s_L_with (solver : CrossingSolver α) (part : LocalParticle α)
    (cg : CollimatorGeometry α) (dL : α) : α :=
  if cg.side = -1 then dL else left_crossing solver part cg

/-- The value of `s_R` at the resolution when the initial value is `dR`. -/
def s_R_with (solver : CrossingSolver α) (part : LocalParticle α)
    (cg : CollimatorGeometry α) (dR : α) : α :=
  if cg.side = 1 then dR else right_crossing solver part cg

/-! ## Frames -/

/-- The rotations that lines 57-121 have applied to the particle when line 131 is
reached, read off the branches taken for the outcome `is_hit`. -/
def frame_after (part : LocalParticle α) (cg : CollimatorGeometry α) (is_hit : Int) :
    LocalParticle α :=
  if cg.side = -1 then
    let p := SRotation_single_particle part cg.sin_zR cg.cos_zR
    if is_hit = -1 then p else SRotation_single_particle p (-cg.sin_zR) cg.cos_zR
  else if cg.side = 1 then
    let p := SRotation_single_particle part cg.sin_zL cg.cos_zL
    if is_hit = 1 then p else SRotation_single_particle p (-cg.sin_zL) cg.cos_zL
  else
    let p := SRotation_single_particle part cg.sin_zL cg.cos_zL
    let q := if cg.jaws_parallel = 0 then
      SRotation_single_particle p cg.sin_zDiff cg.cos_zDiff else p
    if is_hit = -1 then q
    else if is_hit = 1 then
      if cg.jaws_parallel = 0 then SRotation_single_particle q (-cg.sin_zDiff) cg.cos_zDiff
      else q
    else SRotation_single_particle q (-cg.sin_zR) cg.cos_zR

/-- Modelled from the spec: the invariants of the skew angles. Each pair lies on the unit
circle, the rotation by `zDiff` after the rotation by `zL` is the rotation by `zR`, and
`jaws_parallel` is set only for equal skew angles. -/
def TrigConsistent (cg : CollimatorGeometry α) : Prop :=
  cg.sin_zL ^ 2 + cg.cos_zL ^ 2 = 1 ∧ cg.sin_zR ^ 2 + cg.cos_zR ^ 2 = 1 ∧
  cg.sin_zR = cg.sin_zL * cg.cos_zDiff + cg.cos_zL * cg.sin_zDiff ∧
  cg.cos_zR = cg.cos_zL * cg.cos_zDiff - cg.sin_zL * cg.sin_zDiff ∧
  (cg.jaws_parallel ≠ 0 → cg.sin_zL = cg.sin_zR ∧ cg.cos_zL = cg.cos_zR)

/-- Modelled from the spec: what exact arithmetic gives for `sin` and `cos` at the angle
`θ` and its opposite: `sin` is odd, `cos` is even, and the two lie on the unit circle. -/
def TiltConsistent (T : Trig α) (θ : α) : Prop :=
  T.sin (-θ) = -T.sin θ ∧ T.cos (-θ) = T.cos θ ∧ T.sin θ ^ 2 + T.cos θ ^ 2 = 1

/-- Modelled from the spec: the external phase sets the survival flag. -/
def LocalParticle_set_state (part : LocalParticle α) (state : Int) : LocalParticle α :=
  { part with state := state }

/-- The function `hit_jaws_transform_back` on the pair of the particle and the record
behind `cg->record`: lines 170-200 hold no call of `InteractionRecordData_log`, the
record is handed through. -/
def hit_jaws_transform_back_state (T : Trig α) (is_hit : Int)
    (st : LocalParticle α × List (InteractionEvent α)) (cg : CollimatorGeometry α) :
    LocalParticle α × List (InteractionEvent α) :=
  (hit_jaws_transform_back T is_hit st.1 cg, st.2)

/-! ## Optional distances -/

/-- Modelled from the spec: a crossing distance as an optional value, absent when the
solver result is a sentinel (not below `1e20`). -/
def optional_distance (s : α) : Option α := if s < 1e20 then some s else none

/-- Modelled from the spec: the resolution on optional distances. A right hit iff `s_R`
is present and `s_L` is absent or `s_R < s_L`; otherwise a left hit iff `s_L` is
present. -/
def resolve_optional (s_L s_R : Option α) : Int :=
  match s_R, s_L with
  | some r, some l => if r < l then -1 else 1
  | some _, none => -1
  | none, some _ => 1
  | none, none => 0

/-- Modelled from the spec: the optional left distance, absent for a right-sided
collimator. -/
def optional_s_L (solver : CrossingSolver α) (part : LocalParticle α)
    (cg : CollimatorGeometry α) : Option α :=
  if cg.side = -1 then none else optional_distance (left_crossing solver part cg)

/-- Modelled from the spec: the optional right distance, absent for a left-sided
collimator. -/
def optional_s_R (solver : CrossingSolver α) (part : LocalParticle α)
    (cg : CollimatorGeometry α) : Option α :=
  if cg.side = 1 then none else optional_distance (right_crossing solver part cg)

/-! ## Mirror images -/

/-- Modelled from the spec: the mirror of a particle, `x` and its conjugate slope
negated. -/
def mirror_particle (part : LocalParticle α) : LocalParticle α :=
  LocalParticle_scale_px (LocalParticle_scale_x part (-1)) (-1)

/-- Modelled from the spec: `G'` is the right-sided mirror image of the left-sided
geometry `G`. -/
def IsMirrorGeometry (G G' : CollimatorGeometry α) : Prop :=
  G.side = 1 ∧ G'.side = -1 ∧ G'.length = G.length ∧
  G'.jaw_RU = -G.jaw_LU ∧ G'.jaw_RD = -G.jaw_LD ∧
  G'.sin_zR = -G.sin_zL ∧ G'.cos_zR = G.cos_zL ∧
  G'.sin_yR = -G.sin_yL ∧ G'.cos_yR = G.cos_yL ∧ G'.tan_yR = -G.tan_yL

end Model

/-! ## Sample inputs over `ℚ` -/

/-- Angles are stood for by their sine: `asin` and `sin` are the identity, `cos` is exact
at the sines `0` and `±3/5`. -/
def trig_sample : Trig ℚ where
  sin := fun t => t
  cos := fun t => if t = 3 / 5 ∨ t = -(3 / 5) then 4 / 5 else 1
  asin := fun u => u

/-- A two-sided collimator with skew sines `3/5` (left), `4/5` (right) and tilted jaws. -/
def cg_sample : CollimatorGeometry ℚ where
  jaw_LU := 1
  jaw_LD := 1
  jaw_RU := -1
  jaw_RD := -1
  length := 2
  side := 0
  sin_zL := 3 / 5
  cos_zL := 4 / 5
  sin_zR := 4 / 5
  cos_zR := 3 / 5
  sin_zDiff := 7 / 25
  cos_zDiff := 24 / 25
  jaws_parallel := 0
  sin_yL := 3 / 5
  cos_yL := 4 / 5
  tan_yL := 3 / 4
  sin_yR := -(3 / 5)
  cos_yR := 4 / 5
  tan_yR := -(3 / 4)
  record_touches := 1

/-- A two-sided collimator with equal skew angles (sines `3/5`), tilted jaws, and the
identity as `zDiff`. -/
def cg_parallel : CollimatorGeometry ℚ :=
  { cg_sample with sin_zR := 3 / 5, cos_zR := 4 / 5, sin_zDiff := 0, cos_zDiff := 1,
                   jaws_parallel := 1 }

/-- A left-sided collimator with skew and tilt. -/
def cg_left_tilted : CollimatorGeometry ℚ := { cg_sample with side := 1 }

/-- The right-sided mirror image of `cg_left_tilted`. -/
def cg_right_mirror : CollimatorGeometry ℚ :=
  { cg_sample with side := -1, sin_zR := -(3 / 5), cos_zR := 4 / 5 }

/-- A particle entering at `s = 0`, alive. -/
def part_sample : LocalParticle ℚ where
  x := 1 / 2
  px := 1 / 10
  y := 0
  py := 0
  s := 0
  rpp := 1
  state := 1

/-- A solver that finds no crossing. -/
def solver_none : CrossingSolver ℚ := fun _ _ _ _ _ _ _ => 1e21

/-- A solver that finds a crossing at `1/2` on the left jaw only. -/
def solver_left : CrossingSolver ℚ := fun _ _ _ _ _ _ side => if side = 1 then 1 / 2 else 1e21

/-- A solver that finds a crossing at `1/2` on the right jaw only. -/
def solver_right : CrossingSolver ℚ :=
  fun _ _ _ _ _ _ side => if side = -1 then 1 / 2 else 1e21

/-- A solver that finds a crossing at `1/2` on either jaw. -/
def solver_tie : CrossingSolver ℚ := fun _ _ _ _ _ _ _ => 1 / 2

/-- A solver that reports the distance `1.5e20`. -/
def solver_far : CrossingSolver ℚ := fun _ _ _ _ _ _ _ => 1.5e20

section Theorems

variable {α : Type} [LinearOrderedField α]

/-! ## Basic facts about the two jaw checks -/

theorem drift_and_move_is_hit (T : Trig α) (cg : CollimatorGeometry α) (v : HitLocals α)
    (record : List (InteractionEvent α)) :
    (drift_and_move_to_jaw T cg v record).is_hit = v.is_hit := by
  unfold drift_and_move_to_jaw
  split_ifs <;> rfl

theorem jaw_checks_eq_with (solver : CrossingSolver α) (part : LocalParticle α)
    (cg : CollimatorGeometry α) :
    jaw_checks solver part cg = jaw_checks_with solver part cg 1e21 1e21 := rfl

theorem hit_jaws_eq_with (T : Trig α) (solver : CrossingSolver α) (part : LocalParticle α)
    (cg : CollimatorGeometry α) (record : List (InteractionEvent α)) :
    hit_jaws_check_and_transform T solver part cg record =
      hit_jaws_with_defaults T solver part cg record 1e21 1e21 := rfl

theorem check_left_absent (solver : CrossingSolver α) (cg : CollimatorGeometry α)
    (v : HitLocals α) (h : cg.side = -1) : check_left_jaw solver cg v = v := by
  simp [check_left_jaw, h]

theorem check_left_present (solver : CrossingSolver α) (cg : CollimatorGeometry α)
    (part : LocalParticle α) (dL dR : α) (h : cg.side ≠ -1) :
    check_left_jaw solver cg (locals_with_defaults part dL dR) =
      { part :=
          if left_crossing solver part cg < 1e20 then
            SRotation_single_particle part cg.sin_zL cg.cos_zL
          else if cg.side = 1 then SRotation_single_particle
            (SRotation_single_particle part cg.sin_zL cg.cos_zL) (-cg.sin_zL) cg.cos_zL
          else SRotation_single_particle part cg.sin_zL cg.cos_zL
        part_x := LocalParticle_get_x (SRotation_single_particle part cg.sin_zL cg.cos_zL)
        part_tan := LocalParticle_get_xp (SRotation_single_particle part cg.sin_zL cg.cos_zL)
        is_hit := if left_crossing solver part cg < 1e20 then 1 else 0
        s_L := left_crossing solver part cg
        s_R := dR } := by
  simp only [check_left_jaw, locals_with_defaults, left_crossing]
  split_ifs <;> rfl

theorem check_right_s_L (solver : CrossingSolver α) (cg : CollimatorGeometry α)
    (v : HitLocals α) : (check_right_jaw solver cg v).s_L = v.s_L := by
  simp only [check_right_jaw]
  split_ifs <;> rfl

theorem jaw_checks_s_L (solver : CrossingSolver α) (part : LocalParticle α)
    (cg : CollimatorGeometry α) (dL dR : α) :
    (jaw_checks_with solver part cg dL dR).s_L = s_L_with solver part cg dL := by
  unfold jaw_checks_with s_L_with
  rw [check_right_s_L]
  by_cases h : cg.side = -1
  · rw [check_left_absent solver cg _ h, if_pos h]; rfl
  · rw [check_left_present solver cg part dL dR h, if_neg h]

theorem jaw_checks_right_only (solver : CrossingSolver α) (part : LocalParticle α)
    (cg : CollimatorGeometry α) (dL dR : α) (h : cg.side = -1) :
    jaw_checks_with solver part cg dL dR =
      { part :=
          if right_crossing solver part cg < 1e20 ∧ right_crossing solver part cg < dL then
            SRotation_single_particle part cg.sin_zR cg.cos_zR
          else SRotation_single_particle
            (SRotation_single_particle part cg.sin_zR cg.cos_zR) (-cg.sin_zR) cg.cos_zR
        part_x := LocalParticle_get_x (SRotation_single_particle part cg.sin_zR cg.cos_zR)
        part_tan := LocalParticle_get_xp (SRotation_single_particle part cg.sin_zR cg.cos_zR)
        is_hit :=
          if right_crossing solver part cg < 1e20 ∧ right_crossing solver part cg < dL then -1
          else 0
        s_L := dL
        s_R := right_crossing solver part cg } := by
  have h1 : cg.side ≠ 1 := by rw [h]; decide
  unfold jaw_checks_with
  rw [check_left_absent solver cg _ h]
  simp only [check_right_jaw, locals_with_defaults, right_crossing, right_frame, if_pos h,
    if_pos h1]
  split_ifs <;> first | rfl | simp_all

theorem jaw_checks_left_only (solver : CrossingSolver α) (part : LocalParticle α)
    (cg : CollimatorGeometry α) (dL dR : α) (h : cg.side = 1) :
    jaw_checks_with solver part cg dL dR =
      { part :=
          if left_crossing solver part cg < 1e20 then
            SRotation_single_particle part cg.sin_zL cg.cos_zL
          else SRotation_single_particle
            (SRotation_single_particle part cg.sin_zL cg.cos_zL) (-cg.sin_zL) cg.cos_zL
        part_x := LocalParticle_get_x (SRotation_single_particle part cg.sin_zL cg.cos_zL)
        part_tan := LocalParticle_get_xp (SRotation_single_particle part cg.sin_zL cg.cos_zL)
        is_hit := if left_crossing solver part cg < 1e20 then 1 else 0
        s_L := left_crossing solver part cg
        s_R := dR } := by
  have hm : cg.side ≠ -1 := by rw [h]; decide
  unfold jaw_checks_with
  rw [check_left_present solver cg part dL dR hm]
  simp only [check_right_jaw, h, if_true, ne_eq, not_true_eq_false, if_false]

theorem jaw_checks_both (solver : CrossingSolver α) (part : LocalParticle α)
    (cg : CollimatorGeometry α) (dL dR : α) (h1 : cg.side ≠ 1) (hm : cg.side ≠ -1) :
    jaw_checks_with solver part cg dL dR =
      { part :=
          if right_crossing solver part cg < 1e20 ∧
              right_crossing solver part cg < left_crossing solver part cg then
            right_frame part cg
          else if left_crossing solver part cg < 1e20 then
            if cg.jaws_parallel = 0 then
              SRotation_single_particle (right_frame part cg) (-cg.sin_zDiff) cg.cos_zDiff
            else right_frame part cg
          else SRotation_single_particle (right_frame part cg) (-cg.sin_zR) cg.cos_zR
        part_x := LocalParticle_get_x (right_frame part cg)
        part_tan := LocalParticle_get_xp (right_frame part cg)
        is_hit :=
          if right_crossing solver part cg < 1e20 ∧
              right_crossing solver part cg < left_crossing solver part cg then -1
          else if left_crossing solver part cg < 1e20 then 1 else 0
        s_L := left_crossing solver part cg
        s_R := right_crossing solver part cg } := by
  have h1n : ¬ cg.side = 1 := h1
  have hmn : ¬ cg.side = -1 := hm
  unfold jaw_checks_with
  rw [check_left_present solver cg part dL dR hm]
  simp only [check_right_jaw, right_crossing, right_frame, if_neg hmn, if_neg h1n, if_pos h1]
  split_ifs <;> first | rfl | simp_all

theorem jaw_checks_s_R (solver : CrossingSolver α) (part : LocalParticle α)
    (cg : CollimatorGeometry α) (dL dR : α) :
    (jaw_checks_with solver part cg dL dR).s_R = s_R_with solver part cg dR := by
  unfold s_R_with
  by_cases h1 : cg.side = 1
  · rw [jaw_checks_left_only solver part cg dL dR h1, if_pos h1]
  · rw [if_neg h1]
    by_cases hm : cg.side = -1
    · rw [jaw_checks_right_only solver part cg dL dR hm]
    · rw [jaw_checks_both solver part cg dL dR h1 hm]

theorem jaw_checks_is_hit (solver : CrossingSolver α) (part : LocalParticle α)
    (cg : CollimatorGeometry α) (dL dR : α) :
    (jaw_checks_with solver part cg dL dR).is_hit =
      if cg.side ≠ 1 ∧ s_R_with solver part cg dR < 1e20 ∧
          s_R_with solver part cg dR < s_L_with solver part cg dL then -1
      else if cg.side ≠ -1 ∧ s_L_with solver part cg dL < 1e20 then 1 else 0 := by
  unfold s_R_with s_L_with
  by_cases h1 : cg.side = 1
  · have hm : cg.side ≠ -1 := by rw [h1]; decide
    rw [jaw_checks_left_only solver part cg dL dR h1]
    simp [h1]
  · by_cases hm : cg.side = -1
    · rw [jaw_checks_right_only solver part cg dL dR hm]
      simp [hm]
    · rw [jaw_checks_both solver part cg dL dR h1 hm]
      simp [h1, hm]

theorem jaw_checks_part (solver : CrossingSolver α) (part : LocalParticle α)
    (cg : CollimatorGeometry α) (dL dR : α) :
    (jaw_checks_with solver part cg dL dR).part =
      frame_after part cg (jaw_checks_with solver part cg dL dR).is_hit := by
  unfold frame_after
  by_cases h1 : cg.side = 1
  · have hm : ¬ cg.side = -1 := by rw [h1]; decide
    rw [jaw_checks_left_only solver part cg dL dR h1]
    simp only [if_neg hm, if_pos h1]
    split_ifs <;> first | rfl | simp_all
  · by_cases hm : cg.side = -1
    · rw [jaw_checks_right_only solver part cg dL dR hm]
      simp only [if_pos hm]
      split_ifs <;> first | rfl | simp_all
    · rw [jaw_checks_both solver part cg dL dR h1 hm]
      simp only [if_neg hm, if_neg h1, right_frame]
      split_ifs <;> first | rfl | simp_all

/-! ## Algebra of the single-particle maps -/

theorem SRotation_inv (p : LocalParticle α) (s c : α) (h : s ^ 2 + c ^ 2 = 1) :
    SRotation_single_particle (SRotation_single_particle p s c) (-s) c = p := by
  ext
  · simp only [SRotation_single_particle]; linear_combination p.x * h
  · simp only [SRotation_single_particle]; linear_combination p.px * h
  · simp only [SRotation_single_particle]; linear_combination p.y * h
  · simp only [SRotation_single_particle]; linear_combination p.py * h
  · rfl
  · rfl
  · rfl

theorem SRotation_comp (p : LocalParticle α) (s1 c1 s2 c2 : α) :
    SRotation_single_particle (SRotation_single_particle p s1 c1) s2 c2 =
      SRotation_single_particle p (s1 * c2 + c1 * s2) (c1 * c2 - s1 * s2) := by
  ext
  · simp only [SRotation_single_particle]; ring
  · simp only [SRotation_single_particle]; ring
  · simp only [SRotation_single_particle]; ring
  · simp only [SRotation_single_particle]; ring
  · rfl
  · rfl
  · rfl

theorem SRotation_id (p : LocalParticle α) : SRotation_single_particle p 0 1 = p := by
  ext <;> simp [SRotation_single_particle]

theorem SRotation_id_neg (p : LocalParticle α) : SRotation_single_particle p (-0) 1 = p := by
  rw [neg_zero, SRotation_id]

theorem Drift_SRotation (p : LocalParticle α) (s c d : α) :
    Drift_single_particle (SRotation_single_particle p s c) d =
      SRotation_single_particle (Drift_single_particle p d) s c := by
  ext
  · simp only [SRotation_single_particle, Drift_single_particle, LocalParticle_get_xp,
      LocalParticle_get_yp]; ring
  · rfl
  · simp only [SRotation_single_particle, Drift_single_particle, LocalParticle_get_xp,
      LocalParticle_get_yp]; ring
  · rfl
  · rfl
  · rfl
  · rfl

theorem Drift_Drift (p : LocalParticle α) (a b : α) :
    Drift_single_particle (Drift_single_particle p a) b = Drift_single_particle p (a + b) := by
  ext
  · simp only [Drift_single_particle, LocalParticle_get_xp, LocalParticle_get_yp]; ring
  · rfl
  · simp only [Drift_single_particle, LocalParticle_get_xp, LocalParticle_get_yp]; ring
  · rfl
  · simp only [Drift_single_particle]; ring
  · rfl
  · rfl

theorem zDiff_unit (cg : CollimatorGeometry α) (hc : TrigConsistent cg) :
    cg.sin_zDiff ^ 2 + cg.cos_zDiff ^ 2 = 1 := by
  obtain ⟨h1, h2, h3, h4, -⟩ := hc
  rw [h3, h4] at h2
  linear_combination h2 - (cg.sin_zDiff ^ 2 + cg.cos_zDiff ^ 2) * h1

theorem right_frame_consistent (part : LocalParticle α) (cg : CollimatorGeometry α)
    (hc : TrigConsistent cg) :
    right_frame part cg = SRotation_single_particle part cg.sin_zR cg.cos_zR := by
  obtain ⟨h1, h2, h3, h4, h5⟩ := hc
  unfold right_frame
  split_ifs with ha hb
  · rfl
  · rw [SRotation_comp, ← h3, ← h4]
  · obtain ⟨e1, e2⟩ := h5 hb
    rw [e1, e2]

theorem frame_after_left (part : LocalParticle α) (cg : CollimatorGeometry α)
    (hc : TrigConsistent cg) (hm : cg.side ≠ -1) :
    frame_after part cg 1 = SRotation_single_particle part cg.sin_zL cg.cos_zL := by
  have hD := zDiff_unit cg hc
  have hmn : ¬ cg.side = -1 := hm
  have e : ¬ ((1 : Int) = -1) := by decide
  simp only [frame_after, if_neg hmn, if_neg e, if_true]
  split_ifs
  · rfl
  · rw [SRotation_inv _ _ _ hD]
  · rfl

theorem frame_after_right (part : LocalParticle α) (cg : CollimatorGeometry α)
    (hc : TrigConsistent cg) (h1 : cg.side ≠ 1) :
    frame_after part cg (-1) = SRotation_single_particle part cg.sin_zR cg.cos_zR := by
  have hr := right_frame_consistent part cg hc
  have h1n : ¬ cg.side = 1 := h1
  unfold right_frame at hr
  simp only [frame_after, if_neg h1n, if_true]
  split_ifs at hr ⊢ <;> first | rfl | exact hr

theorem frame_after_none (part : LocalParticle α) (cg : CollimatorGeometry α)
    (hc : TrigConsistent cg) : frame_after part cg 0 = part := by
  have hr := right_frame_consistent part cg hc
  obtain ⟨hL, hR, -⟩ := hc
  have e1 : ¬ ((0 : Int) = -1) := by decide
  have e2 : ¬ ((0 : Int) = 1) := by decide
  unfold right_frame at hr
  simp only [frame_after, if_neg e1, if_neg e2]
  split_ifs at hr ⊢ <;>
    first
    | exact SRotation_inv _ _ _ hR
    | exact SRotation_inv _ _ _ hL
    | (rw [hr]; exact SRotation_inv _ _ _ hR)

/-! ## The outcome transform and its reversal -/

theorem Drift_set_state (p : LocalParticle α) (st : Int) (d : α) :
    Drift_single_particle (LocalParticle_set_state p st) d =
      LocalParticle_set_state (Drift_single_particle p d) st := rfl

theorem SRotation_set_state (p : LocalParticle α) (st : Int) (s c : α) :
    SRotation_single_particle (LocalParticle_set_state p st) s c =
      LocalParticle_set_state (SRotation_single_particle p s c) st := rfl

theorem move_from_left_of_move_to (T : Trig α) (cg : CollimatorGeometry α)
    (F : LocalParticle α) (s : α) (st : Int)
    (ht : TiltConsistent T (T.asin cg.sin_yL)) :
    move_from_left_jaw T cg (LocalParticle_set_state (move_to_left_jaw T cg F s) st) =
      LocalParticle_set_state (Drift_single_particle F s) st := by
  obtain ⟨hs, hk, hP⟩ := ht
  ext
  · simp only [move_from_left_jaw, move_to_left_jaw, LocalParticle_set_state,
      YRotation_single_particle_rotate_only, LocalParticle_set_s, LocalParticle_get_s,
      LocalParticle_get_x, XYShift_single_particle, LocalParticle_add_to_s,
      Drift_single_particle, LocalParticle_get_xp, LocalParticle_get_yp, hs, hk]
    linear_combination (F.x + F.px * F.rpp * s - cg.jaw_LU) * hP
  · rfl
  · simp only [move_from_left_jaw, move_to_left_jaw, LocalParticle_set_state,
      YRotation_single_particle_rotate_only, LocalParticle_set_s, LocalParticle_get_s,
      LocalParticle_get_x, XYShift_single_particle, LocalParticle_add_to_s,
      Drift_single_particle, LocalParticle_get_xp, LocalParticle_get_yp]
    ring
  · rfl
  · simp only [move_from_left_jaw, move_to_left_jaw, LocalParticle_set_state,
      YRotation_single_particle_rotate_only, LocalParticle_set_s, LocalParticle_get_s,
      LocalParticle_get_x, XYShift_single_particle, LocalParticle_add_to_s,
      Drift_single_particle, LocalParticle_get_xp, LocalParticle_get_yp, hs, hk]
    linear_combination (F.s + s + -cg.length / 2 * (1 - cg.cos_yL)) * hP
  · rfl
  · rfl

theorem move_from_right_of_move_to (T : Trig α) (cg : CollimatorGeometry α)
    (F : LocalParticle α) (s : α) (st : Int)
    (ht : TiltConsistent T (T.asin cg.sin_yR)) :
    move_from_right_jaw T cg (LocalParticle_set_state (move_to_right_jaw T cg F s) st) =
      LocalParticle_set_state (Drift_single_particle F s) st := by
  obtain ⟨hs, hk, hP⟩ := ht
  ext
  · simp only [move_from_right_jaw, move_to_right_jaw, LocalParticle_set_state,
      YRotation_single_particle_rotate_only, LocalParticle_set_s, LocalParticle_get_s,
      LocalParticle_get_x, XYShift_single_particle, LocalParticle_add_to_s,
      Drift_single_particle, LocalParticle_get_xp, LocalParticle_get_yp,
      LocalParticle_scale_x, LocalParticle_scale_px, hs, hk]
    linear_combination (F.x + F.px * F.rpp * s - cg.jaw_RU) * hP
  · simp only [move_from_right_jaw, move_to_right_jaw, LocalParticle_set_state,
      YRotation_single_particle_rotate_only, LocalParticle_set_s, LocalParticle_get_s,
      LocalParticle_get_x, XYShift_single_particle, LocalParticle_add_to_s,
      Drift_single_particle, LocalParticle_get_xp, LocalParticle_get_yp,
      LocalParticle_scale_x, LocalParticle_scale_px]
    ring
  · simp only [move_from_right_jaw, move_to_right_jaw, LocalParticle_set_state,
      YRotation_single_particle_rotate_only, LocalParticle_set_s, LocalParticle_get_s,
      LocalParticle_get_x, XYShift_single_particle, LocalParticle_add_to_s,
      Drift_single_particle, LocalParticle_get_xp, LocalParticle_get_yp,
      LocalParticle_scale_x, LocalParticle_scale_px]
    ring
  · rfl
  · simp only [move_from_right_jaw, move_to_right_jaw, LocalParticle_set_state,
      YRotation_single_particle_rotate_only, LocalParticle_set_s, LocalParticle_get_s,
      LocalParticle_get_x, XYShift_single_particle, LocalParticle_add_to_s,
      Drift_single_particle, LocalParticle_get_xp, LocalParticle_get_yp,
      LocalParticle_scale_x, LocalParticle_scale_px, hs, hk]
    linear_combination (F.s + s + -cg.length / 2 * (1 - cg.cos_yR)) * hP
  · rfl
  · rfl

theorem drift_to_end_alive (cg : CollimatorGeometry α) (p : LocalParticle α)
    (h : 0 < p.state) :
    drift_to_end cg p = Drift_single_particle p (cg.length - p.s) := by
  unfold drift_to_end LocalParticle_get_state LocalParticle_get_s
  rw [if_pos h]

theorem drift_to_end_lost (cg : CollimatorGeometry α) (p : LocalParticle α)
    (h : p.state ≤ 0) : drift_to_end cg p = p := by
  unfold drift_to_end LocalParticle_get_state
  rw [if_neg (not_lt.mpr h)]

/-- Reversal of a left-jaw outcome transform from the left skew frame of `part`. -/
theorem back_after_left (T : Trig α) (cg : CollimatorGeometry α) (part : LocalParticle α)
    (s : α) (st : Int) (hz : cg.sin_zL ^ 2 + cg.cos_zL ^ 2 = 1)
    (ht : TiltConsistent T (T.asin cg.sin_yL)) :
    hit_jaws_transform_back T 1 (LocalParticle_set_state
      (move_to_left_jaw T cg (SRotation_single_particle part cg.sin_zL cg.cos_zL) s) st) cg =
      LocalParticle_set_state
        (Drift_single_particle part (if 0 < st then cg.length - part.s else s)) st := by
  unfold hit_jaws_transform_back
  rw [if_pos rfl, move_from_left_of_move_to T cg _ s st ht]
  by_cases h : 0 < st
  · rw [drift_to_end_alive cg _ h, if_pos h, Drift_set_state, Drift_Drift, Drift_SRotation,
      SRotation_set_state, SRotation_inv _ _ _ hz]
    congr 2
    simp only [LocalParticle_set_state, Drift_single_particle, SRotation_single_particle]
    ring
  · rw [drift_to_end_lost cg _ (not_lt.mp h), if_neg h, Drift_SRotation, SRotation_set_state,
      SRotation_inv _ _ _ hz]

/-- Reversal of a right-jaw outcome transform from the right skew frame of `part`. -/
theorem back_after_right (T : Trig α) (cg : CollimatorGeometry α) (part : LocalParticle α)
    (s : α) (st : Int) (hz : cg.sin_zR ^ 2 + cg.cos_zR ^ 2 = 1)
    (ht : TiltConsistent T (T.asin cg.sin_yR)) :
    hit_jaws_transform_back T (-1) (LocalParticle_set_state
      (move_to_right_jaw T cg (SRotation_single_particle part cg.sin_zR cg.cos_zR) s) st) cg =
      LocalParticle_set_state
        (Drift_single_particle part (if 0 < st then cg.length - part.s else s)) st := by
  have e : ¬ ((-1 : Int) = 1) := by decide
  unfold hit_jaws_transform_back
  rw [if_neg e, if_pos rfl, move_from_right_of_move_to T cg _ s st ht]
  by_cases h : 0 < st
  · rw [drift_to_end_alive cg _ h, if_pos h, Drift_set_state, Drift_Drift, Drift_SRotation,
      SRotation_set_state, SRotation_inv _ _ _ hz]
    congr 2
    simp only [LocalParticle_set_state, Drift_single_particle, SRotation_single_particle]
    ring
  · rw [drift_to_end_lost cg _ (not_lt.mp h), if_neg h, Drift_SRotation, SRotation_set_state,
      SRotation_inv _ _ _ hz]

/-! ## The outcome and the final particle -/

theorem hit_with_is_hit (T : Trig α) (solver : CrossingSolver α) (part : LocalParticle α)
    (cg : CollimatorGeometry α) (record : List (InteractionEvent α)) (dL dR : α) :
    (hit_jaws_with_defaults T solver part cg record dL dR).is_hit =
      (jaw_checks_with solver part cg dL dR).is_hit :=
  drift_and_move_is_hit T cg _ record

theorem hit_is_hit (T : Trig α) (solver : CrossingSolver α) (part : LocalParticle α)
    (cg : CollimatorGeometry α) (record : List (InteractionEvent α)) :
    (hit_jaws_check_and_transform T solver part cg record).is_hit =
      if cg.side ≠ 1 ∧ s_R_of solver part cg < 1e20 ∧
          s_R_of solver part cg < s_L_of solver part cg then -1
      else if cg.side ≠ -1 ∧ s_L_of solver part cg < 1e20 then 1 else 0 := by
  rw [hit_jaws_eq_with, hit_with_is_hit, jaw_checks_is_hit]
  rfl

theorem is_hit_left (solver : CrossingSolver α) (part : LocalParticle α)
    (cg : CollimatorGeometry α) (dL dR : α)
    (h : (jaw_checks_with solver part cg dL dR).is_hit = 1) :
    cg.side ≠ -1 ∧ s_L_with solver part cg dL < 1e20 := by
  rw [jaw_checks_is_hit] at h
  split_ifs at h <;> first | assumption | exact absurd h (by decide)

theorem is_hit_right (solver : CrossingSolver α) (part : LocalParticle α)
    (cg : CollimatorGeometry α) (dL dR : α)
    (h : (jaw_checks_with solver part cg dL dR).is_hit = -1) :
    cg.side ≠ 1 ∧ s_R_with solver part cg dR < 1e20 ∧
      s_R_with solver part cg dR < s_L_with solver part cg dL := by
  rw [jaw_checks_is_hit] at h
  split_ifs at h; assumption

theorem is_hit_cases (solver : CrossingSolver α) (part : LocalParticle α)
    (cg : CollimatorGeometry α) (dL dR : α) :
    (jaw_checks_with solver part cg dL dR).is_hit = 0 ∨
      (jaw_checks_with solver part cg dL dR).is_hit = 1 ∨
      (jaw_checks_with solver part cg dL dR).is_hit = -1 := by
  rw [jaw_checks_is_hit]
  split_ifs <;> simp

theorem hit_with_part_left (T : Trig α) (solver : CrossingSolver α) (part : LocalParticle α)
    (cg : CollimatorGeometry α) (record : List (InteractionEvent α)) (dL dR : α)
    (h : (jaw_checks_with solver part cg dL dR).is_hit = 1) :
    (hit_jaws_with_defaults T solver part cg record dL dR).part =
      move_to_left_jaw T cg (frame_after part cg 1) (s_L_with solver part cg dL) := by
  have hp := jaw_checks_part solver part cg dL dR
  rw [h] at hp
  unfold hit_jaws_with_defaults drift_and_move_to_jaw
  rw [if_pos h, ← hp, ← jaw_checks_s_L solver part cg dL dR]
  split_ifs <;> rfl

theorem hit_with_part_right (T : Trig α) (solver : CrossingSolver α)
    (part : LocalParticle α) (cg : CollimatorGeometry α)
    (record : List (InteractionEvent α)) (dL dR : α)
    (h : (jaw_checks_with solver part cg dL dR).is_hit = -1) :
    (hit_jaws_with_defaults T solver part cg record dL dR).part =
      move_to_right_jaw T cg (frame_after part cg (-1)) (s_R_with solver part cg dR) := by
  have hp := jaw_checks_part solver part cg dL dR
  rw [h] at hp
  have e : ¬ ((jaw_checks_with solver part cg dL dR).is_hit = 1) := by rw [h]; decide
  unfold hit_jaws_with_defaults drift_and_move_to_jaw
  rw [if_neg e, if_pos h, ← hp, ← jaw_checks_s_R solver part cg dL dR]
  split_ifs <;> rfl

theorem hit_with_part_none (T : Trig α) (solver : CrossingSolver α) (part : LocalParticle α)
    (cg : CollimatorGeometry α) (record : List (InteractionEvent α)) (dL dR : α)
    (h : (jaw_checks_with solver part cg dL dR).is_hit = 0) :
    (hit_jaws_with_defaults T solver part cg record dL dR).part =
      Drift_single_particle (frame_after part cg 0) cg.length := by
  have hp := jaw_checks_part solver part cg dL dR
  rw [h] at hp
  have e1 : ¬ ((jaw_checks_with solver part cg dL dR).is_hit = 1) := by rw [h]; decide
  have e2 : ¬ ((jaw_checks_with solver part cg dL dR).is_hit = -1) := by rw [h]; decide
  unfold hit_jaws_with_defaults drift_and_move_to_jaw
  rw [if_neg e1, if_neg e2, ← hp]

theorem hit_with_record (T : Trig α) (solver : CrossingSolver α) (part : LocalParticle α)
    (cg : CollimatorGeometry α) (record : List (InteractionEvent α)) (dL dR : α) :
    (hit_jaws_with_defaults T solver part cg record dL dR).record =
      if cg.record_touches ≠ 0 ∧ (jaw_checks_with solver part cg dL dR).is_hit = 1 then
        record ++ [⟨.XC_ENTER_JAW_L, (hit_jaws_with_defaults T solver part cg record dL dR).part⟩]
      else if cg.record_touches ≠ 0 ∧ (jaw_checks_with solver part cg dL dR).is_hit = -1 then
        record ++ [⟨.XC_ENTER_JAW_R, (hit_jaws_with_defaults T solver part cg record dL dR).part⟩]
      else record := by
  unfold hit_jaws_with_defaults drift_and_move_to_jaw InteractionRecordData_log
  split_ifs <;> simp_all

/-! ## Resolution rule -/

/-- C1: with `s_L`, `s_R` the solver results (default `1.e21` for an absent jaw), the
return value is `-1` iff `side ≠ 1`, `s_R < 1e20` and `s_R < s_L`; it is `1` iff
`side ≠ -1`, `s_L < 1e20` and the right-hit condition fails; it is `0` otherwise. -/
theorem hit_resolution_rule (T : Trig α) (solver : CrossingSolver α)
    (part : LocalParticle α) (cg : CollimatorGeometry α)
    (record : List (InteractionEvent α)) :
    let r := (hit_jaws_check_and_transform T solver part cg record).is_hit
    let s_L := s_L_of solver part cg
    let s_R := s_R_of solver part cg
    let hitR := cg.side ≠ 1 ∧ s_R < 1e20 ∧ s_R < s_L
    let hitL := cg.side ≠ -1 ∧ s_L < 1e20 ∧ ¬ hitR
    (r = -1 ↔ hitR) ∧ (r = 1 ↔ hitL) ∧ (r = 0 ↔ ¬ hitR ∧ ¬ hitL) := by
  intro r s_L s_R hitR hitL
  have hr : r = if hitR then -1 else if cg.side ≠ -1 ∧ s_L < 1e20 then 1 else 0 :=
    hit_is_hit T solver part cg record
  by_cases h1 : hitR
  · rw [hr, if_pos h1]
    exact ⟨⟨fun _ => h1, fun _ => rfl⟩,
      ⟨fun h => absurd h (by decide), fun h => absurd h1 h.2.2⟩,
      ⟨fun h => absurd h (by decide), fun h => absurd h1 h.1⟩⟩
  · rw [hr, if_neg h1]
    by_cases h2 : cg.side ≠ -1 ∧ s_L < 1e20
    · rw [if_pos h2]
      exact ⟨⟨fun h => absurd h (by decide), fun h => absurd h h1⟩,
        ⟨fun _ => ⟨h2.1, h2.2, h1⟩, fun _ => rfl⟩,
        ⟨fun h => absurd h (by decide), fun h => absurd ⟨h2.1, h2.2, h1⟩ h.2⟩⟩
    · rw [if_neg h2]
      have h3 : ¬ hitL := fun h => h2 ⟨h.1, h.2.1⟩
      exact ⟨⟨fun h => absurd h (by decide), fun h => absurd h h1⟩,
        ⟨fun h => absurd h (by decide), fun h => absurd h h3⟩,
        ⟨fun _ => ⟨h1, h3⟩, fun _ => rfl⟩⟩

/-- C9: the return value is one of `0`, `1`, `-1`; a left-sided collimator (`side = 1`)
never reports `-1` and a right-sided collimator (`side = -1`) never reports `1`. -/
theorem hit_outcome_range (T : Trig α) (solver : CrossingSolver α)
    (part : LocalParticle α) (cg : CollimatorGeometry α)
    (record : List (InteractionEvent α)) :
    let r := (hit_jaws_check_and_transform T solver part cg record).is_hit
    (r = 0 ∨ r = 1 ∨ r = -1) ∧ (cg.side = 1 → r ≠ -1) ∧ (cg.side = -1 → r ≠ 1) := by
  intro r
  have hr : r = _ := hit_is_hit T solver part cg record
  refine ⟨?_, ?_, ?_⟩
  · rw [hr]; split_ifs <;> simp
  · intro h; rw [hr]; split_ifs <;> simp_all
  · intro h; rw [hr]; split_ifs <;> simp_all

/-! ## Pass-through -/

/-- C2: for a trig-consistent geometry, whatever `side` and `jaws_parallel` are, when
`hit_jaws_check_and_transform` returns `0` the final particle is the input particle
drifted by `cg.length` in the lab frame: the position is the entry position plus slope
times length, the slope is unchanged and `s` has advanced by `length`. -/
theorem no_hit_is_full_drift (T : Trig α) (solver : CrossingSolver α)
    (part : LocalParticle α) (cg : CollimatorGeometry α)
    (record : List (InteractionEvent α)) (hc : TrigConsistent cg)
    (h0 : (hit_jaws_check_and_transform T solver part cg record).is_hit = 0) :
    (hit_jaws_check_and_transform T solver part cg record).part =
        Drift_single_particle part cg.length ∧
      LocalParticle_get_x (hit_jaws_check_and_transform T solver part cg record).part =
        LocalParticle_get_x part + LocalParticle_get_xp part * cg.length ∧
      LocalParticle_get_xp (hit_jaws_check_and_transform T solver part cg record).part =
        LocalParticle_get_xp part ∧
      LocalParticle_get_s (hit_jaws_check_and_transform T solver part cg record).part =
        LocalParticle_get_s part + cg.length := by
  have e : (hit_jaws_check_and_transform T solver part cg record).part =
      Drift_single_particle part cg.length := by
    rw [hit_jaws_eq_with] at h0 ⊢
    rw [hit_with_is_hit] at h0
    rw [hit_with_part_none T solver part cg record _ _ h0, frame_after_none part cg hc]
  rw [e]
  exact ⟨rfl, rfl, rfl, rfl⟩

/-- Witness for C2: no crossing on the skewed, tilted two-sided sample collimator. -/
theorem no_hit_is_full_drift_witness :
    (hit_jaws_check_and_transform trig_sample solver_none part_sample cg_sample []).part =
      Drift_single_particle part_sample cg_sample.length :=
  (no_hit_is_full_drift trig_sample solver_none part_sample cg_sample []
    (by norm_num [TrigConsistent, cg_sample])
    (by rw [hit_is_hit]
        norm_num [s_L_of, s_R_of, left_crossing, right_crossing, solver_none,
          cg_sample])).1

/-! ## Frames -/

/-- C13: for a trig-consistent geometry the particle that reaches the final
drift/transform step is the input rotated by the left skew `zL` when the outcome is `1`,
rotated by the right skew `zR` when it is `-1`, and the input itself (lab frame) when it
is `0`. For a left hit of a collimator with a right jaw the rotations applied are `zL`
alone when the jaws are parallel, and `zL`, `zDiff`, `-zDiff` when they are not. -/
theorem frame_bookkeeping (solver : CrossingSolver α) (part : LocalParticle α)
    (cg : CollimatorGeometry α) (hc : TrigConsistent cg) :
    ((jaw_checks solver part cg).is_hit = 1 → (jaw_checks solver part cg).part =
        SRotation_single_particle part cg.sin_zL cg.cos_zL) ∧
      ((jaw_checks solver part cg).is_hit = -1 → (jaw_checks solver part cg).part =
        SRotation_single_particle part cg.sin_zR cg.cos_zR) ∧
      ((jaw_checks solver part cg).is_hit = 0 → (jaw_checks solver part cg).part = part) ∧
      ((jaw_checks solver part cg).is_hit = 1 → cg.side ≠ 1 →
        (jaw_checks solver part cg).part =
          if cg.jaws_parallel = 0 then
            SRotation_single_particle (SRotation_single_particle
              (SRotation_single_particle part cg.sin_zL cg.cos_zL)
              cg.sin_zDiff cg.cos_zDiff) (-cg.sin_zDiff) cg.cos_zDiff
          else SRotation_single_particle part cg.sin_zL cg.cos_zL) := by
  have hp := jaw_checks_part solver part cg 1e21 1e21
  rw [← jaw_checks_eq_with] at hp
  refine ⟨?_, ?_, ?_, ?_⟩
  · intro h
    have hs := (is_hit_left solver part cg 1e21 1e21 h).1
    rw [hp, h, frame_after_left part cg hc hs]
  · intro h
    have hs := (is_hit_right solver part cg 1e21 1e21 h).1
    rw [hp, h, frame_after_right part cg hc hs]
  · intro h
    rw [hp, h, frame_after_none part cg hc]
  · intro h h1
    have hm : ¬ cg.side = -1 := (is_hit_left solver part cg 1e21 1e21 h).1
    have h1n : ¬ cg.side = 1 := h1
    have e : ¬ ((1 : Int) = -1) := by decide
    rw [hp, h]
    simp only [frame_after, if_neg hm, if_neg h1n, if_neg e, if_true]
    split_ifs <;> rfl

/-- Witness for C13: a left hit on the two-sided sample collimator, whose jaws are not
parallel. -/
theorem frame_bookkeeping_witness :
    (jaw_checks solver_left part_sample cg_sample).part =
      SRotation_single_particle part_sample cg_sample.sin_zL cg_sample.cos_zL :=
  (frame_bookkeeping solver_left part_sample cg_sample
    (by norm_num [TrigConsistent, cg_sample])).1
    (by rw [jaw_checks_eq_with, jaw_checks_is_hit]
        norm_num [s_L_with, s_R_with, left_crossing, right_crossing, solver_left,
          cg_sample])

/-! ## Logging -/

/-- C12: `hit_jaws_check_and_transform` appends exactly one event when `record_touches`
is non-zero and the outcome is a hit, tagged `XC_ENTER_JAW_L` for the outcome `1` and
`XC_ENTER_JAW_R` for the outcome `-1`, holding the final particle (in the jaw frame, for a
right hit after the mirroring); it leaves the record as it was when `record_touches` is
zero or the outcome is `0`; `hit_jaws_transform_back` leaves the record as it was. -/
theorem logging_contract (T : Trig α) (solver : CrossingSolver α) (part : LocalParticle α)
    (cg : CollimatorGeometry α) (record : List (InteractionEvent α)) :
    let r := hit_jaws_check_and_transform T solver part cg record
    (cg.record_touches ≠ 0 ∧ r.is_hit = 1 →
        r.record = record ++ [⟨InteractionType.XC_ENTER_JAW_L, r.part⟩]) ∧
      (cg.record_touches ≠ 0 ∧ r.is_hit = -1 →
        r.record = record ++ [⟨InteractionType.XC_ENTER_JAW_R, r.part⟩]) ∧
      (cg.record_touches = 0 ∨ r.is_hit = 0 → r.record = record) ∧
      ∀ (is_hit : Int) (p : LocalParticle α),
        (hit_jaws_transform_back_state T is_hit (p, r.record) cg).2 = r.record := by
  intro r
  have hi : r.is_hit = (jaw_checks_with solver part cg 1e21 1e21).is_hit :=
    hit_with_is_hit T solver part cg record 1e21 1e21
  have hr : r.record = _ := hit_with_record T solver part cg record 1e21 1e21
  rw [← hi] at hr
  refine ⟨?_, ?_, ?_, ?_⟩
  · intro h
    rw [hr, if_pos h]; rfl
  · intro h
    have e : ¬ (cg.record_touches ≠ 0 ∧ r.is_hit = 1) := by
      intro h'; rw [h.2] at h'; exact absurd h'.2 (by decide)
    rw [hr, if_neg e, if_pos h]; rfl
  · intro h
    have e1 : ¬ (cg.record_touches ≠ 0 ∧ r.is_hit = 1) := by
      rintro ⟨a, b⟩
      rcases h with h | h
      · exact a h
      · rw [h] at b; exact absurd b (by decide)
    have e2 : ¬ (cg.record_touches ≠ 0 ∧ r.is_hit = -1) := by
      rintro ⟨a, b⟩
      rcases h with h | h
      · exact a h
      · rw [h] at b; exact absurd b (by decide)
    rw [hr, if_neg e1, if_neg e2]
  · intro is_hit p
    rfl

/-- Witness for C12: a left hit with logging enabled appends one `XC_ENTER_JAW_L`
event. -/
theorem logging_contract_witness :
    (hit_jaws_check_and_transform trig_sample solver_left part_sample cg_sample []).record =
      [] ++ [⟨InteractionType.XC_ENTER_JAW_L,
        (hit_jaws_check_and_transform trig_sample solver_left part_sample cg_sample
          []).part⟩] :=
  (logging_contract trig_sample solver_left part_sample cg_sample []).1
    ⟨by decide, by
      rw [hit_is_hit]
      norm_num [s_L_of, s_R_of, left_crossing, right_crossing, solver_left, cg_sample]⟩

/-! ## The reverse transform -/

/-- C6: `hit_jaws_transform_back` called with the outcome `0` returns the particle
unchanged, every field of it, whatever the survival state. -/
theorem transform_back_no_hit (T : Trig α) (part : LocalParticle α)
    (cg : CollimatorGeometry α) : hit_jaws_transform_back T 0 part cg = part := by
  have e1 : ¬ ((0 : Int) = 1) := by decide
  have e2 : ¬ ((0 : Int) = -1) := by decide
  unfold hit_jaws_transform_back
  rw [if_neg e1, if_neg e2]

/-- C5: for the outcomes `1` and `-1` and a particle with survival state `> 0`, the
longitudinal coordinate after `hit_jaws_transform_back` is `cg.length`: the particle is
drifted by `length` minus the `s` it has after the tilt rotation and the tilt offset are
undone, then rotated back by the skew. -/
theorem transform_back_ends_at_length (T : Trig α) (is_hit : Int) (part : LocalParticle α)
    (cg : CollimatorGeometry α) (hh : is_hit = 1 ∨ is_hit = -1)
    (hs : 0 < LocalParticle_get_state part) :
    LocalParticle_get_s (hit_jaws_transform_back T is_hit part cg) = cg.length ∧
      hit_jaws_transform_back T 1 part cg =
        SRotation_single_particle (Drift_single_particle (move_from_left_jaw T cg part)
          (cg.length - LocalParticle_get_s (move_from_left_jaw T cg part)))
          (-cg.sin_zL) cg.cos_zL ∧
      hit_jaws_transform_back T (-1) part cg =
        SRotation_single_particle (Drift_single_particle (move_from_right_jaw T cg part)
          (cg.length - LocalParticle_get_s (move_from_right_jaw T cg part)))
          (-cg.sin_zR) cg.cos_zR := by
  have e : ¬ ((-1 : Int) = 1) := by decide
  have hL : 0 < (move_from_left_jaw T cg part).state := hs
  have hR : 0 < (move_from_right_jaw T cg part).state := hs
  refine ⟨?_, ?_, ?_⟩
  · rcases hh with h | h
    · rw [h]
      unfold hit_jaws_transform_back
      rw [if_pos rfl, drift_to_end_alive cg _ hL]
      simp only [LocalParticle_get_s, SRotation_single_particle, Drift_single_particle]
      ring
    · rw [h]
      unfold hit_jaws_transform_back
      rw [if_neg e, if_pos rfl, drift_to_end_alive cg _ hR]
      simp only [LocalParticle_get_s, SRotation_single_particle, Drift_single_particle]
      ring
  · unfold hit_jaws_transform_back
    rw [if_pos rfl, drift_to_end_alive cg _ hL]
    rfl
  · unfold hit_jaws_transform_back
    rw [if_neg e, if_pos rfl, drift_to_end_alive cg _ hR]
    rfl

/-- Witness for C5: a right-hit reversal of the sample particle, which is alive. -/
theorem transform_back_ends_at_length_witness :
    LocalParticle_get_s (hit_jaws_transform_back trig_sample (-1) part_sample cg_sample) =
      cg_sample.length :=
  (transform_back_ends_at_length trig_sample (-1) part_sample cg_sample (Or.inr rfl)
    (by decide)).1

/-- C4: for the outcomes `1` and `-1` and a particle with survival state `≤ 0`,
`hit_jaws_transform_back` performs no drift. Its effect is (for `-1`, after `x` and `px`
are negated) the tilt rotation by `-asin(sin_y)`, the shift by `-jaw_U`, the addition of
`length/2*(1 - cos_y)` to `s` and the skew rotation by `(-sin_z, cos_z)`, so the final `s`
is the un-rotated tilt-frame `s` plus `length/2*(1 - cos_y)`. With survival state `> 0`
the drift by `length - s` is performed before the skew rotation. -/
theorem lost_particle_suppression (T : Trig α) (part : LocalParticle α)
    (cg : CollimatorGeometry α) :
    let rL := YRotation_single_particle_rotate_only T part (LocalParticle_get_s part)
      (-T.asin cg.sin_yL)
    let qL := LocalParticle_add_to_s (XYShift_single_particle
      (LocalParticle_set_s rL.1 rL.2) (-cg.jaw_LU) 0) (cg.length / 2 * (1 - cg.cos_yL))
    let m := LocalParticle_scale_px (LocalParticle_scale_x part (-1)) (-1)
    let rR := YRotation_single_particle_rotate_only T m (LocalParticle_get_s m)
      (-T.asin cg.sin_yR)
    let qR := LocalParticle_add_to_s (XYShift_single_particle
      (LocalParticle_set_s rR.1 rR.2) (-cg.jaw_RU) 0) (cg.length / 2 * (1 - cg.cos_yR))
    (LocalParticle_get_state part ≤ 0 →
      hit_jaws_transform_back T 1 part cg =
          SRotation_single_particle qL (-cg.sin_zL) cg.cos_zL ∧
        hit_jaws_transform_back T (-1) part cg =
          SRotation_single_particle qR (-cg.sin_zR) cg.cos_zR ∧
        LocalParticle_get_s (hit_jaws_transform_back T 1 part cg) =
          rL.2 + cg.length / 2 * (1 - cg.cos_yL) ∧
        LocalParticle_get_s (hit_jaws_transform_back T (-1) part cg) =
          rR.2 + cg.length / 2 * (1 - cg.cos_yR)) ∧
      (0 < LocalParticle_get_state part →
        hit_jaws_transform_back T 1 part cg =
          SRotation_single_particle
            (Drift_single_particle qL (cg.length - LocalParticle_get_s qL))
            (-cg.sin_zL) cg.cos_zL ∧
        hit_jaws_transform_back T (-1) part cg =
          SRotation_single_particle
            (Drift_single_particle qR (cg.length - LocalParticle_get_s qR))
            (-cg.sin_zR) cg.cos_zR) := by
  intro rL qL m rR qR
  have e : ¬ ((-1 : Int) = 1) := by decide
  have eL : move_from_left_jaw T cg part = qL := rfl
  have eR : move_from_right_jaw T cg part = qR := rfl
  constructor
  · intro hs
    have hL : qL.state ≤ 0 := hs
    have hR : qR.state ≤ 0 := hs
    have a : hit_jaws_transform_back T 1 part cg =
        SRotation_single_particle qL (-cg.sin_zL) cg.cos_zL := by
      unfold hit_jaws_transform_back
      rw [if_pos rfl, eL, drift_to_end_lost cg _ hL]
    have b : hit_jaws_transform_back T (-1) part cg =
        SRotation_single_particle qR (-cg.sin_zR) cg.cos_zR := by
      unfold hit_jaws_transform_back
      rw [if_neg e, if_pos rfl, eR, drift_to_end_lost cg _ hR]
    refine ⟨a, b, ?_, ?_⟩
    · rw [a]; rfl
    · rw [b]; rfl
  · intro hs
    have hL : 0 < qL.state := hs
    have hR : 0 < qR.state := hs
    constructor
    · unfold hit_jaws_transform_back
      rw [if_pos rfl, eL, drift_to_end_alive cg _ hL]
      rfl
    · unfold hit_jaws_transform_back
      rw [if_neg e, if_pos rfl, eR, drift_to_end_alive cg _ hR]
      rfl

/-- Witness for C4: the sample particle, marked lost, reversed from a left hit. -/
theorem lost_particle_suppression_witness :
    LocalParticle_get_s (hit_jaws_transform_back trig_sample 1
        (LocalParticle_set_state part_sample 0) cg_sample) =
      (YRotation_single_particle_rotate_only trig_sample
        (LocalParticle_set_state part_sample 0)
        (LocalParticle_get_s (LocalParticle_set_state part_sample 0))
        (-trig_sample.asin cg_sample.sin_yL)).2 +
      cg_sample.length / 2 * (1 - cg_sample.cos_yL) :=
  ((lost_particle_suppression trig_sample (LocalParticle_set_state part_sample 0)
    cg_sample).1 (by decide)).2.2.1

/-! ## The two calls composed -/

theorem back_outcome_zero (T : Trig α) (part : LocalParticle α) (cg : CollimatorGeometry α) :
    hit_jaws_transform_back T 0 part cg = part := by
  have e1 : ¬ ((0 : Int) = 1) := by decide
  have e2 : ¬ ((0 : Int) = -1) := by decide
  unfold hit_jaws_transform_back
  rw [if_neg e1, if_neg e2]

theorem composite_left (T : Trig α) (solver : CrossingSolver α) (part : LocalParticle α)
    (cg : CollimatorGeometry α) (record : List (InteractionEvent α)) (st : Int)
    (hc : TrigConsistent cg) (ht : TiltConsistent T (T.asin cg.sin_yL))
    (h : (hit_jaws_check_and_transform T solver part cg record).is_hit = 1) :
    hit_jaws_transform_back T 1 (LocalParticle_set_state
      (hit_jaws_check_and_transform T solver part cg record).part st) cg =
      LocalParticle_set_state (Drift_single_particle part
        (if 0 < st then cg.length - part.s else s_L_of solver part cg)) st := by
  rw [hit_jaws_eq_with] at h ⊢
  rw [hit_with_is_hit] at h
  rw [hit_with_part_left T solver part cg record _ _ h,
    frame_after_left part cg hc (is_hit_left solver part cg _ _ h).1,
    back_after_left T cg part _ st hc.1 ht]
  rfl

theorem composite_right (T : Trig α) (solver : CrossingSolver α) (part : LocalParticle α)
    (cg : CollimatorGeometry α) (record : List (InteractionEvent α)) (st : Int)
    (hc : TrigConsistent cg) (ht : TiltConsistent T (T.asin cg.sin_yR))
    (h : (hit_jaws_check_and_transform T solver part cg record).is_hit = -1) :
    hit_jaws_transform_back T (-1) (LocalParticle_set_state
      (hit_jaws_check_and_transform T solver part cg record).part st) cg =
      LocalParticle_set_state (Drift_single_particle part
        (if 0 < st then cg.length - part.s else s_R_of solver part cg)) st := by
  rw [hit_jaws_eq_with] at h ⊢
  rw [hit_with_is_hit] at h
  rw [hit_with_part_right T solver part cg record _ _ h,
    frame_after_right part cg hc (is_hit_right solver part cg _ _ h).1,
    back_after_right T cg part _ st hc.2.1 ht]
  rfl

theorem hit_part_state (T : Trig α) (solver : CrossingSolver α) (part : LocalParticle α)
    (cg : CollimatorGeometry α) (record : List (InteractionEvent α)) :
    (hit_jaws_check_and_transform T solver part cg record).part.state = part.state := by
  rw [hit_jaws_eq_with]
  rcases is_hit_cases solver part cg 1e21 1e21 with h | h | h
  · rw [hit_with_part_none T solver part cg record _ _ h]
    simp only [frame_after, Drift_single_particle]
    split_ifs <;> rfl
  · rw [hit_with_part_left T solver part cg record _ _ h]
    simp only [frame_after, move_to_left_jaw]
    split_ifs <;> rfl
  · rw [hit_with_part_right T solver part cg record _ _ h]
    simp only [frame_after, move_to_right_jaw]
    split_ifs <;> rfl

theorem hit_part_set_state (T : Trig α) (solver : CrossingSolver α)
    (part : LocalParticle α) (cg : CollimatorGeometry α)
    (record : List (InteractionEvent α)) :
    LocalParticle_set_state (hit_jaws_check_and_transform T solver part cg record).part
      part.state = (hit_jaws_check_and_transform T solver part cg record).part := by
  rw [← hit_part_state T solver part cg record]
  rfl

/-- Both calls composed, the particle untouched in between and alive. -/
theorem composite_alive (T : Trig α) (solver : CrossingSolver α) (part : LocalParticle α)
    (cg : CollimatorGeometry α) (record : List (InteractionEvent α))
    (hc : TrigConsistent cg) (htL : TiltConsistent T (T.asin cg.sin_yL))
    (htR : TiltConsistent T (T.asin cg.sin_yR)) (hs : 0 < part.state) :
    hit_jaws_transform_back T (hit_jaws_check_and_transform T solver part cg record).is_hit
      (hit_jaws_check_and_transform T solver part cg record).part cg =
      Drift_single_particle part
        (if (hit_jaws_check_and_transform T solver part cg record).is_hit = 0 then cg.length
         else cg.length - part.s) := by
  have hcases : (hit_jaws_check_and_transform T solver part cg record).is_hit = 0 ∨
      (hit_jaws_check_and_transform T solver part cg record).is_hit = 1 ∨
      (hit_jaws_check_and_transform T solver part cg record).is_hit = -1 := by
    rw [hit_jaws_eq_with, hit_with_is_hit]
    exact is_hit_cases solver part cg _ _
  rcases hcases with h | h | h
  · rw [h, if_pos rfl, back_outcome_zero]
    rw [hit_jaws_eq_with] at h ⊢
    rw [hit_with_is_hit] at h
    rw [hit_with_part_none T solver part cg record _ _ h, frame_after_none part cg hc]
  · have e : ¬ ((1 : Int) = 0) := by decide
    have hcomp := composite_left T solver part cg record part.state hc htL h
    rw [hit_part_set_state, if_pos hs] at hcomp
    rw [h, if_neg e, hcomp]
    rfl
  · have e : ¬ ((-1 : Int) = 0) := by decide
    have hcomp := composite_right T solver part cg record part.state hc htR h
    rw [hit_part_set_state, if_pos hs] at hcomp
    rw [h, if_neg e, hcomp]
    rfl

/-! ## Round trips -/

/-- Counterexample for C3: on the sample collimator with no crossing the outcome is `0`
and the two calls leave the sample particle (alive, entering at `x = 1/2`, `s = 0`) at
`x = 7/10`, `s = 2`; with a crossing of the left jaw at `1/2` the outcome is `1` and the
two calls end at the same place. Neither the position nor `s` is restored. -/
theorem round_trip_counterexample :
    TrigConsistent cg_sample ∧
      TiltConsistent trig_sample (trig_sample.asin cg_sample.sin_yL) ∧
      TiltConsistent trig_sample (trig_sample.asin cg_sample.sin_yR) ∧
      0 < LocalParticle_get_state part_sample ∧
      LocalParticle_get_x part_sample = 1 / 2 ∧ LocalParticle_get_s part_sample = 0 ∧
      (hit_jaws_check_and_transform trig_sample solver_none part_sample cg_sample
        []).is_hit = 0 ∧
      LocalParticle_get_x (hit_jaws_transform_back trig_sample
        (hit_jaws_check_and_transform trig_sample solver_none part_sample cg_sample []).is_hit
        (hit_jaws_check_and_transform trig_sample solver_none part_sample cg_sample []).part
        cg_sample) = 7 / 10 ∧
      LocalParticle_get_s (hit_jaws_transform_back trig_sample
        (hit_jaws_check_and_transform trig_sample solver_none part_sample cg_sample []).is_hit
        (hit_jaws_check_and_transform trig_sample solver_none part_sample cg_sample []).part
        cg_sample) = 2 ∧
      (hit_jaws_check_and_transform trig_sample solver_left part_sample cg_sample
        []).is_hit = 1 ∧
      LocalParticle_get_x (hit_jaws_transform_back trig_sample
        (hit_jaws_check_and_transform trig_sample solver_left part_sample cg_sample []).is_hit
        (hit_jaws_check_and_transform trig_sample solver_left part_sample cg_sample []).part
        cg_sample) = 7 / 10 ∧
      LocalParticle_get_s (hit_jaws_transform_back trig_sample
        (hit_jaws_check_and_transform trig_sample solver_left part_sample cg_sample []).is_hit
        (hit_jaws_check_and_transform trig_sample solver_left part_sample cg_sample []).part
        cg_sample) = 2 := by
  have hc : TrigConsistent cg_sample := by norm_num [TrigConsistent, cg_sample]
  have htL : TiltConsistent trig_sample (trig_sample.asin cg_sample.sin_yL) := by
    norm_num [TiltConsistent, trig_sample, cg_sample]
  have htR : TiltConsistent trig_sample (trig_sample.asin cg_sample.sin_yR) := by
    norm_num [TiltConsistent, trig_sample, cg_sample]
  have hs : 0 < part_sample.state := by decide
  have h0 : (hit_jaws_check_and_transform trig_sample solver_none part_sample cg_sample
      []).is_hit = 0 := by
    rw [hit_is_hit]
    norm_num [s_L_of, s_R_of, left_crossing, right_crossing, solver_none, cg_sample]
  have h1 : (hit_jaws_check_and_transform trig_sample solver_left part_sample cg_sample
      []).is_hit = 1 := by
    rw [hit_is_hit]
    norm_num [s_L_of, s_R_of, left_crossing, right_crossing, solver_left, cg_sample]
  have b0 := composite_alive trig_sample solver_none part_sample cg_sample [] hc htL htR hs
  have b1 := composite_alive trig_sample solver_left part_sample cg_sample [] hc htL htR hs
  rw [h0, if_pos rfl] at b0
  rw [h1, if_neg (by decide)] at b1
  refine ⟨hc, htL, htR, hs, rfl, rfl, h0, ?_, ?_, h1, ?_, ?_⟩
  · rw [h0, b0]
    norm_num [Drift_single_particle, LocalParticle_get_x, LocalParticle_get_xp, part_sample,
      cg_sample]
  · rw [h0, b0]
    norm_num [Drift_single_particle, LocalParticle_get_s, part_sample, cg_sample]
  · rw [h1, b1]
    norm_num [Drift_single_particle, LocalParticle_get_x, LocalParticle_get_xp, part_sample,
      cg_sample]
  · rw [h1, b1]
    norm_num [Drift_single_particle, LocalParticle_get_s, part_sample, cg_sample]

/-- C3 (amended): for a trig-consistent geometry, exact `sin`/`cos` at the two tilt angles
and a particle with survival state `> 0`, `hit_jaws_check_and_transform` followed by
`hit_jaws_transform_back` with the returned outcome leaves the input particle drifted in
the lab frame, by `length` for the outcome `0` and by `length - s0` for a hit (`s0` the
entry `s`). The slope is restored; `s` ends at `s0 + length` resp. `length` and the
position at the entry position plus slope times that distance. -/
theorem round_trip_is_drift (T : Trig α) (solver : CrossingSolver α)
    (part : LocalParticle α) (cg : CollimatorGeometry α)
    (record : List (InteractionEvent α)) (hc : TrigConsistent cg)
    (htL : TiltConsistent T (T.asin cg.sin_yL)) (htR : TiltConsistent T (T.asin cg.sin_yR))
    (hs : 0 < LocalParticle_get_state part) :
    hit_jaws_transform_back T (hit_jaws_check_and_transform T solver part cg record).is_hit
        (hit_jaws_check_and_transform T solver part cg record).part cg =
        Drift_single_particle part
          (if (hit_jaws_check_and_transform T solver part cg record).is_hit = 0 then cg.length
           else cg.length - LocalParticle_get_s part) ∧
      LocalParticle_get_xp (hit_jaws_transform_back T
        (hit_jaws_check_and_transform T solver part cg record).is_hit
        (hit_jaws_check_and_transform T solver part cg record).part cg) =
        LocalParticle_get_xp part ∧
      LocalParticle_get_s (hit_jaws_transform_back T
        (hit_jaws_check_and_transform T solver part cg record).is_hit
        (hit_jaws_check_and_transform T solver part cg record).part cg) =
        (if (hit_jaws_check_and_transform T solver part cg record).is_hit = 0 then
          LocalParticle_get_s part + cg.length else cg.length) ∧
      LocalParticle_get_x (hit_jaws_transform_back T
        (hit_jaws_check_and_transform T solver part cg record).is_hit
        (hit_jaws_check_and_transform T solver part cg record).part cg) =
        LocalParticle_get_x part + LocalParticle_get_xp part *
          (if (hit_jaws_check_and_transform T solver part cg record).is_hit = 0 then cg.length
           else cg.length - LocalParticle_get_s part) := by
  have hb := composite_alive T solver part cg record hc htL htR hs
  refine ⟨hb, ?_, ?_, ?_⟩
  · rw [hb]; rfl
  · rw [hb]
    simp only [LocalParticle_get_s, Drift_single_particle]
    split_ifs
    · rfl
    · ring
  · rw [hb]; rfl

/-- Witness for C3 (amended): a left hit on the sample collimator. -/
theorem round_trip_is_drift_witness :
    hit_jaws_transform_back trig_sample
        (hit_jaws_check_and_transform trig_sample solver_left part_sample cg_sample []).is_hit
        (hit_jaws_check_and_transform trig_sample solver_left part_sample cg_sample []).part
        cg_sample =
      Drift_single_particle part_sample
        (if (hit_jaws_check_and_transform trig_sample solver_left part_sample cg_sample
            []).is_hit = 0 then cg_sample.length
         else cg_sample.length - LocalParticle_get_s part_sample) :=
  (round_trip_is_drift trig_sample solver_left part_sample cg_sample []
    (by norm_num [TrigConsistent, cg_sample])
    (by norm_num [TiltConsistent, trig_sample, cg_sample])
    (by norm_num [TiltConsistent, trig_sample, cg_sample])
    (by decide)).1

/-- C16: for a trig-consistent geometry, exact `sin`/`cos` at the tilt angles and a
particle with survival state `> 0` entering at `s0`, when `hit_jaws_check_and_transform`
reports a hit and the particle is handed unchanged to `hit_jaws_transform_back`, the two
calls together are one lab-frame drift of the input by `length - s0`. That is the drift
by `length` of the outcome `0` exactly when `s0 = 0`. -/
theorem hit_round_trip_is_drift (T : Trig α) (solver : CrossingSolver α)
    (part : LocalParticle α) (cg : CollimatorGeometry α)
    (record : List (InteractionEvent α)) (hc : TrigConsistent cg)
    (htL : TiltConsistent T (T.asin cg.sin_yL)) (htR : TiltConsistent T (T.asin cg.sin_yR))
    (hs : 0 < LocalParticle_get_state part)
    (hh : (hit_jaws_check_and_transform T solver part cg record).is_hit ≠ 0) :
    hit_jaws_transform_back T (hit_jaws_check_and_transform T solver part cg record).is_hit
        (hit_jaws_check_and_transform T solver part cg record).part cg =
        Drift_single_particle part (cg.length - LocalParticle_get_s part) ∧
      (Drift_single_particle part (cg.length - LocalParticle_get_s part) =
        Drift_single_particle part cg.length ↔ LocalParticle_get_s part = 0) := by
  have hb := composite_alive T solver part cg record hc htL htR hs
  rw [if_neg hh] at hb
  refine ⟨hb, ?_, ?_⟩
  · intro h
    have h2 := congrArg LocalParticle.s h
    simp only [Drift_single_particle, LocalParticle_get_s] at h2 ⊢
    linear_combination -h2
  · intro h
    rw [h, sub_zero]

/-- Witness for C16: a right hit on the sample collimator. -/
theorem hit_round_trip_is_drift_witness :
    hit_jaws_transform_back trig_sample
        (hit_jaws_check_and_transform trig_sample solver_right part_sample cg_sample
          []).is_hit
        (hit_jaws_check_and_transform trig_sample solver_right part_sample cg_sample []).part
        cg_sample =
      Drift_single_particle part_sample (cg_sample.length - LocalParticle_get_s part_sample) :=
  (hit_round_trip_is_drift trig_sample solver_right part_sample cg_sample []
    (by norm_num [TrigConsistent, cg_sample])
    (by norm_num [TiltConsistent, trig_sample, cg_sample])
    (by norm_num [TiltConsistent, trig_sample, cg_sample])
    (by decide)
    (by rw [hit_is_hit]
        norm_num [s_L_of, s_R_of, left_crossing, right_crossing, solver_right,
          cg_sample])).1

/-- C17: for a trig-consistent geometry and exact `sin`/`cos` at the tilt angles, when
`hit_jaws_check_and_transform` reports a hit at the solver distance `s_hit` (`s_L` for
the outcome `1`, `s_R` for `-1`) and only the survival state is set, to a non-positive
value, before `hit_jaws_transform_back`, the two calls together are the lab-frame drift
of the input by `s_hit`: `s = s0 + s_hit` and the slope is the entry slope. -/
theorem lost_round_trip_is_drift (T : Trig α) (solver : CrossingSolver α)
    (part : LocalParticle α) (cg : CollimatorGeometry α)
    (record : List (InteractionEvent α)) (st : Int) (hc : TrigConsistent cg)
    (htL : TiltConsistent T (T.asin cg.sin_yL)) (htR : TiltConsistent T (T.asin cg.sin_yR))
    (hst : st ≤ 0)
    (hh : (hit_jaws_check_and_transform T solver part cg record).is_hit = 1 ∨
      (hit_jaws_check_and_transform T solver part cg record).is_hit = -1) :
    hit_jaws_transform_back T (hit_jaws_check_and_transform T solver part cg record).is_hit
        (LocalParticle_set_state
          (hit_jaws_check_and_transform T solver part cg record).part st) cg =
        LocalParticle_set_state (Drift_single_particle part
          (if (hit_jaws_check_and_transform T solver part cg record).is_hit = 1 then
            s_L_of solver part cg else s_R_of solver part cg)) st ∧
      LocalParticle_get_s (hit_jaws_transform_back T
        (hit_jaws_check_and_transform T solver part cg record).is_hit
        (LocalParticle_set_state
          (hit_jaws_check_and_transform T solver part cg record).part st) cg) =
        LocalParticle_get_s part +
          (if (hit_jaws_check_and_transform T solver part cg record).is_hit = 1 then
            s_L_of solver part cg else s_R_of solver part cg) ∧
      LocalParticle_get_xp (hit_jaws_transform_back T
        (hit_jaws_check_and_transform T solver part cg record).is_hit
        (LocalParticle_set_state
          (hit_jaws_check_and_transform T solver part cg record).part st) cg) =
        LocalParticle_get_xp part := by
  have hn : ¬ (0 < st) := not_lt.mpr hst
  have e : hit_jaws_transform_back T
      (hit_jaws_check_and_transform T solver part cg record).is_hit
      (LocalParticle_set_state
        (hit_jaws_check_and_transform T solver part cg record).part st) cg =
      LocalParticle_set_state (Drift_single_particle part
        (if (hit_jaws_check_and_transform T solver part cg record).is_hit = 1 then
          s_L_of solver part cg else s_R_of solver part cg)) st := by
    rcases hh with h | h
    · have hb := composite_left T solver part cg record st hc htL h
      rw [if_neg hn] at hb
      rw [h, if_pos rfl, hb]
    · have hb := composite_right T solver part cg record st hc htR h
      rw [if_neg hn] at hb
      rw [h, if_neg (by decide), hb]
  refine ⟨e, ?_, ?_⟩
  · rw [e]; rfl
  · rw [e]; rfl

/-- Witness for C17: a left hit on the sample collimator, the particle then marked lost. -/
theorem lost_round_trip_is_drift_witness :
    LocalParticle_get_s (hit_jaws_transform_back trig_sample
        (hit_jaws_check_and_transform trig_sample solver_left part_sample cg_sample []).is_hit
        (LocalParticle_set_state
          (hit_jaws_check_and_transform trig_sample solver_left part_sample cg_sample
            []).part 0) cg_sample) =
      LocalParticle_get_s part_sample +
        (if (hit_jaws_check_and_transform trig_sample solver_left part_sample cg_sample
            []).is_hit = 1 then
          s_L_of solver_left part_sample cg_sample
         else s_R_of solver_left part_sample cg_sample) :=
  (lost_round_trip_is_drift trig_sample solver_left part_sample cg_sample [] 0
    (by norm_num [TrigConsistent, cg_sample])
    (by norm_num [TiltConsistent, trig_sample, cg_sample])
    (by norm_num [TiltConsistent, trig_sample, cg_sample])
    (by decide)
    (Or.inl (by
      rw [hit_is_hit]
      norm_num [s_L_of, s_R_of, left_crossing, right_crossing, solver_left,
        cg_sample]))).2.1

/-! ## Tie-break -/

/-- C7: for a two-sided collimator (`side` neither `1` nor `-1`) whose left and right
solver results are equal and valid (`< 1e20`), `hit_jaws_check_and_transform` returns
`1`, not `-1`, and the final particle is the input rotated to the left skew frame,
drifted by `s_L` and moved to the frame of the left jaw. (`sin_zDiff`, `cos_zDiff` lie on
the unit circle when the jaws are not parallel, as the data model has it.) -/
theorem tie_break_left (T : Trig α) (solver : CrossingSolver α) (part : LocalParticle α)
    (cg : CollimatorGeometry α) (record : List (InteractionEvent α))
    (h1 : cg.side ≠ 1) (hm : cg.side ≠ -1)
    (hv : left_crossing solver part cg < 1e20)
    (he : left_crossing solver part cg = right_crossing solver part cg)
    (hD : cg.jaws_parallel = 0 → cg.sin_zDiff ^ 2 + cg.cos_zDiff ^ 2 = 1) :
    (hit_jaws_check_and_transform T solver part cg record).is_hit = 1 ∧
      (hit_jaws_check_and_transform T solver part cg record).is_hit ≠ -1 ∧
      (hit_jaws_check_and_transform T solver part cg record).part =
        move_to_left_jaw T cg (SRotation_single_particle part cg.sin_zL cg.cos_zL)
          (left_crossing solver part cg) ∧
      (hit_jaws_check_and_transform T solver part cg record).part =
        (let p := LocalParticle_add_to_s (XYShift_single_particle (Drift_single_particle
            (SRotation_single_particle part cg.sin_zL cg.cos_zL)
            (left_crossing solver part cg)) cg.jaw_LU 0)
            (-cg.length / 2 * (1 - cg.cos_yL))
         let r := YRotation_single_particle_rotate_only T p (LocalParticle_get_s p)
            (T.asin cg.sin_yL)
         LocalParticle_set_s r.1 r.2) := by
  have h1n : ¬ cg.side = 1 := h1
  have hmn : ¬ cg.side = -1 := hm
  have hi : (jaw_checks_with solver part cg 1e21 1e21).is_hit = 1 := by
    rw [jaw_checks_is_hit]
    simp only [s_L_with, s_R_with, if_neg h1n, if_neg hmn, ← he]
    rw [if_neg (fun h => lt_irrefl _ h.2.2), if_pos ⟨hm, hv⟩]
  have hp : (hit_jaws_check_and_transform T solver part cg record).part =
      move_to_left_jaw T cg (SRotation_single_particle part cg.sin_zL cg.cos_zL)
        (left_crossing solver part cg) := by
    have e : ¬ ((1 : Int) = -1) := by decide
    rw [hit_jaws_eq_with, hit_with_part_left T solver part cg record _ _ hi]
    simp only [frame_after, s_L_with, if_neg hmn, if_neg h1n, if_neg e, if_true]
    split_ifs with hj
    · rw [SRotation_inv _ _ _ (hD hj)]
    · rfl
  have hi2 : (hit_jaws_check_and_transform T solver part cg record).is_hit = 1 := by
    rw [hit_jaws_eq_with, hit_with_is_hit, hi]
  refine ⟨hi2, ?_, hp, ?_⟩
  · rw [hi2]; decide
  · rw [hp]; rfl

/-- Witness for C7: the sample collimator with a solver that reports `1/2` on both
jaws. -/
theorem tie_break_left_witness :
    (hit_jaws_check_and_transform trig_sample solver_tie part_sample cg_sample []).is_hit = 1 :=
  (tie_break_left trig_sample solver_tie part_sample cg_sample [] (by decide) (by decide)
    (by norm_num [left_crossing, solver_tie])
    (by norm_num [left_crossing, right_crossing, solver_tie])
    (by intro _; norm_num [cg_sample])).1

/-! ## Parallel jaws -/

theorem hit_result_eq {β : Type} (a b : HitResult β) (h1 : a.is_hit = b.is_hit) (h2 : a.part = b.part)
    (h3 : a.record = b.record) : a = b := by
  cases a
  cases b
  simp only [HitResult.mk.injEq]
  exact ⟨h1, h2, h3⟩

theorem jaw_checks_flag (solver : CrossingSolver α) (part : LocalParticle α)
    (cg : CollimatorGeometry α) (dL dR : α) (j : Int) (hsd : cg.sin_zDiff = 0)
    (hcd : cg.cos_zDiff = 1) :
    jaw_checks_with solver part { cg with jaws_parallel := j } dL dR =
      jaw_checks_with solver part { cg with jaws_parallel := 0 } dL dR := by
  have hf : right_frame part { cg with jaws_parallel := j } =
      right_frame part { cg with jaws_parallel := 0 } := by
    simp only [right_frame, hsd, hcd, SRotation_id, if_true]
    split_ifs <;> rfl
  have hx : right_crossing solver part { cg with jaws_parallel := j } =
      right_crossing solver part { cg with jaws_parallel := 0 } := by
    unfold right_crossing
    rw [hf]
    rfl
  have hl : left_crossing solver part { cg with jaws_parallel := j } =
      left_crossing solver part { cg with jaws_parallel := 0 } := rfl
  by_cases h1 : cg.side = 1
  · rw [jaw_checks_left_only solver part { cg with jaws_parallel := j } dL dR h1,
      jaw_checks_left_only solver part { cg with jaws_parallel := 0 } dL dR h1]
    rfl
  · by_cases hm : cg.side = -1
    · rw [jaw_checks_right_only solver part { cg with jaws_parallel := j } dL dR hm,
        jaw_checks_right_only solver part { cg with jaws_parallel := 0 } dL dR hm, hx]
    · rw [jaw_checks_both solver part { cg with jaws_parallel := j } dL dR h1 hm,
        jaw_checks_both solver part { cg with jaws_parallel := 0 } dL dR h1 hm, hx, hl, hf]
      simp only [hsd, hcd, neg_zero, SRotation_id, if_true]
      split_ifs <;> rfl

/-- C8: for a geometry whose skew angles are equal, so that `sin_zDiff = 0` and
`cos_zDiff = 1`, `hit_jaws_check_and_transform` run with `jaws_parallel` set (any value
`j`) and run with `jaws_parallel = 0` (the rotation by `zDiff` forced) give the same
outcome, the same final particle and the same record, for every `side`; the same holds
after `hit_jaws_transform_back`. Of the equal skew angles only `sin_zDiff = 0` and
`cos_zDiff = 1` are used. -/
theorem parallel_fast_path (T : Trig α) (solver : CrossingSolver α) (part : LocalParticle α)
    (cg : CollimatorGeometry α) (record : List (InteractionEvent α)) (j : Int)
    (hsd : cg.sin_zDiff = 0) (hcd : cg.cos_zDiff = 1) :
    hit_jaws_check_and_transform T solver part { cg with jaws_parallel := j } record =
        hit_jaws_check_and_transform T solver part { cg with jaws_parallel := 0 } record ∧
      hit_jaws_transform_back T
        (hit_jaws_check_and_transform T solver part { cg with jaws_parallel := j }
          record).is_hit
        (hit_jaws_check_and_transform T solver part { cg with jaws_parallel := j }
          record).part { cg with jaws_parallel := j } =
      hit_jaws_transform_back T
        (hit_jaws_check_and_transform T solver part { cg with jaws_parallel := 0 }
          record).is_hit
        (hit_jaws_check_and_transform T solver part { cg with jaws_parallel := 0 }
          record).part { cg with jaws_parallel := 0 } := by
  have e : hit_jaws_check_and_transform T solver part { cg with jaws_parallel := j } record =
      hit_jaws_check_and_transform T solver part { cg with jaws_parallel := 0 } record := by
    rw [hit_jaws_eq_with, hit_jaws_eq_with]
    unfold hit_jaws_with_defaults
    rw [jaw_checks_flag solver part cg _ _ j hsd hcd]
    rfl
  refine ⟨e, ?_⟩
  rw [e]
  rfl

/-- Witness for C8: a left hit on the two-sided sample collimator with equal skew
angles, where the right jaw is checked as well; flag `1` against flag `0`. -/
theorem parallel_fast_path_witness :
    cg_parallel.side = 0 ∧
      (hit_jaws_check_and_transform trig_sample solver_left part_sample
        { cg_parallel with jaws_parallel := 0 } []).is_hit = 1 ∧
      hit_jaws_check_and_transform trig_sample solver_left part_sample
          { cg_parallel with jaws_parallel := 1 } [] =
        hit_jaws_check_and_transform trig_sample solver_left part_sample
          { cg_parallel with jaws_parallel := 0 } [] :=
  ⟨rfl,
    by rw [hit_is_hit]
       norm_num [s_L_of, s_R_of, left_crossing, right_crossing, solver_left, cg_parallel,
         cg_sample],
    (parallel_fast_path trig_sample solver_left part_sample cg_parallel [] 1
      (by norm_num [cg_parallel]) (by norm_num [cg_parallel])).1⟩

/-! ## Left hit -/

/-- C11: let `G` be left-sided and `G'` its right-sided mirror image, `p'` the mirror of
the particle `p`. With a solver that returns the same distance for mirrored inputs and
with `asin`, `sin` odd and `cos` even at the tilt angle, `hit_jaws_check_and_transform`
returns `-1` on `(p', G')` exactly when it returns `1` on `(p, G)`, and then the two
final particles are equal (after the mirroring step of the right-hit branch): the same
jaw-local `x`, slope and `s`. -/
theorem mirror_symmetry (T : Trig α) (solver : CrossingSolver α) (p : LocalParticle α)
    (G G' : CollimatorGeometry α) (record record' : List (InteractionEvent α))
    (hG : IsMirrorGeometry G G')
    (hsolver : ∀ x t js a b tn,
      solver (-x) (-t) js (-a, -b) 2 (-tn) (-1) = solver x t js (a, b) 2 tn 1)
    (hasin : T.asin (-G.sin_yL) = -T.asin G.sin_yL)
    (hsin : T.sin (-T.asin G.sin_yL) = -T.sin (T.asin G.sin_yL))
    (hcos : T.cos (-T.asin G.sin_yL) = T.cos (T.asin G.sin_yL)) :
    ((hit_jaws_check_and_transform T solver (mirror_particle p) G' record').is_hit = -1 ↔
        (hit_jaws_check_and_transform T solver p G record).is_hit = 1) ∧
      ((hit_jaws_check_and_transform T solver p G record).is_hit = 1 →
        (hit_jaws_check_and_transform T solver (mirror_particle p) G' record').part =
          (hit_jaws_check_and_transform T solver p G record).part) := by
  obtain ⟨g1, g2, g3, g4, g5, g6, g7, g8, g9, g10⟩ := hG
  have hmn : ¬ G.side = -1 := by rw [g1]; decide
  have h1n : ¬ G'.side = 1 := by rw [g2]; decide
  have hx : right_crossing solver (mirror_particle p) G' = left_crossing solver p G := by
    have a1 : LocalParticle_get_x (SRotation_single_particle (mirror_particle p)
        (-G.sin_zL) G.cos_zL) =
        -LocalParticle_get_x (SRotation_single_particle p G.sin_zL G.cos_zL) := by
      simp only [LocalParticle_get_x, SRotation_single_particle, mirror_particle,
        LocalParticle_scale_x, LocalParticle_scale_px]
      ring
    have a2 : LocalParticle_get_xp (SRotation_single_particle (mirror_particle p)
        (-G.sin_zL) G.cos_zL) =
        -LocalParticle_get_xp (SRotation_single_particle p G.sin_zL G.cos_zL) := by
      simp only [LocalParticle_get_xp, SRotation_single_particle, mirror_particle,
        LocalParticle_scale_x, LocalParticle_scale_px]
      ring
    simp only [right_crossing, left_crossing, right_frame, if_pos g2, right_jaw_s,
      right_jaw_x, left_jaw_s, left_jaw_x, g3, g4, g5, g6, g7, g9, g10, a1, a2]
    exact hsolver _ _ _ _ _ _
  have hiL : (hit_jaws_check_and_transform T solver p G record).is_hit =
      if left_crossing solver p G < 1e20 then 1 else 0 := by
    rw [hit_is_hit]
    simp only [s_L_of, if_neg hmn]
    rw [if_neg (fun h => h.1 g1)]
    simp only [ne_eq, hmn, not_false_eq_true, true_and]
  have hiR : (hit_jaws_check_and_transform T solver (mirror_particle p) G' record').is_hit =
      if left_crossing solver p G < 1e20 then -1 else 0 := by
    rw [hit_is_hit]
    simp only [s_L_of, s_R_of, if_pos g2, if_neg h1n, hx]
    by_cases hv : left_crossing solver p G < 1e20
    · have hlt : left_crossing solver p G < 1e21 := lt_trans hv (by norm_num)
      rw [if_pos ⟨h1n, hv, hlt⟩, if_pos hv]
    · rw [if_neg (fun h => hv h.2.1), if_neg hv, if_neg (fun h => h.1 g2)]
  constructor
  · rw [hiL, hiR]
    split_ifs <;> simp
  · intro h
    rw [hiL] at h
    have hv : left_crossing solver p G < 1e20 := by
      by_contra hv
      rw [if_neg hv] at h
      exact absurd h (by decide)
    have hjL : (jaw_checks_with solver p G 1e21 1e21).is_hit = 1 := by
      rw [← hit_with_is_hit T solver p G record, ← hit_jaws_eq_with, hiL, if_pos hv]
    have hjR : (jaw_checks_with solver (mirror_particle p) G' 1e21 1e21).is_hit = -1 := by
      rw [← hit_with_is_hit T solver (mirror_particle p) G' record', ← hit_jaws_eq_with, hiR,
        if_pos hv]
    have e : ¬ ((1 : Int) = -1) := by decide
    rw [hit_jaws_eq_with, hit_jaws_eq_with,
      hit_with_part_left T solver p G record _ _ hjL,
      hit_with_part_right T solver (mirror_particle p) G' record' _ _ hjR]
    simp only [frame_after, s_L_with, s_R_with, if_pos g2, if_neg hmn, if_pos g1, if_neg h1n,
      if_true, hx]
    ext <;>
      simp only [move_to_right_jaw, move_to_left_jaw, YRotation_single_particle_rotate_only,
        LocalParticle_set_s, LocalParticle_get_s, LocalParticle_get_x,
        XYShift_single_particle, LocalParticle_add_to_s, Drift_single_particle,
        LocalParticle_get_xp, LocalParticle_get_yp, LocalParticle_scale_x,
        LocalParticle_scale_px, SRotation_single_particle, mirror_particle, g3, g4, g6, g7,
        g8, g9, hasin, hsin, hcos] <;>
      ring

/-- Witness for C11: the tilted left-sided sample geometry and its mirror image, with a
solver that reports `1/2` on either jaw. -/
theorem mirror_symmetry_witness :
    (hit_jaws_check_and_transform trig_sample solver_tie (mirror_particle part_sample)
        cg_right_mirror []).part =
      (hit_jaws_check_and_transform trig_sample solver_tie part_sample cg_left_tilted
        []).part :=
  (mirror_symmetry trig_sample solver_tie part_sample cg_left_tilted cg_right_mirror [] []
    (by norm_num [IsMirrorGeometry, cg_left_tilted, cg_right_mirror, cg_sample])
    (by intros; rfl)
    (by norm_num [trig_sample])
    (by norm_num [trig_sample])
    (by norm_num [trig_sample, cg_left_tilted, cg_sample])).2
    (by rw [hit_is_hit]
        norm_num [s_L_of, s_R_of, left_crossing, right_crossing, solver_tie,
          cg_left_tilted, cg_sample])

/-! ## Sentinel distances -/

theorem resolve_agree (side : Int) (A A' B B' : α)
    (hA : A' = A ∨ (1e20 ≤ A ∧ 1e20 ≤ A')) (hB : B' = B ∨ (1e20 ≤ B ∧ 1e20 ≤ B')) :
    (if side ≠ 1 ∧ B' < 1e20 ∧ B' < A' then (-1 : Int)
      else if side ≠ -1 ∧ A' < 1e20 then 1 else 0) =
    (if side ≠ 1 ∧ B < 1e20 ∧ B < A then (-1 : Int)
      else if side ≠ -1 ∧ A < 1e20 then 1 else 0) := by
  have c2 : A' < 1e20 ↔ A < 1e20 := by
    rcases hA with h | ⟨h1, h2⟩
    · rw [h]
    · exact ⟨fun h => absurd h (not_lt.mpr h2), fun h => absurd h (not_lt.mpr h1)⟩
  have c1 : (B' < 1e20 ∧ B' < A') ↔ (B < 1e20 ∧ B < A) := by
    rcases hB with h | ⟨h1, h2⟩
    · rw [h]
      rcases hA with h' | ⟨h1', h2'⟩
      · rw [h']
      · exact ⟨fun h => ⟨h.1, lt_of_lt_of_le h.1 h1'⟩, fun h => ⟨h.1, lt_of_lt_of_le h.1 h2'⟩⟩
    · exact ⟨fun h => absurd h.1 (not_lt.mpr h2), fun h => absurd h.1 (not_lt.mpr h1)⟩
  simp only [c1, c2]

/-- C14: the outcome, the final particle and the record depend on a no-crossing
distance only through its being `≥ 1e20`. Replacing the initial values `1.e21` by any
`dL`, `dR ≥ 1e20` and the solver by one that differs from it only where both results are
`≥ 1e20` changes nothing. The outcome is the one of the resolution on optional
distances: a right hit iff `s_R` is present and `s_L` is absent or `s_R < s_L`,
otherwise a left hit iff `s_L` is present. -/
theorem sentinel_independence (T : Trig α) (solver solver' : CrossingSolver α)
    (part : LocalParticle α) (cg : CollimatorGeometry α)
    (record : List (InteractionEvent α)) (dL dR : α) (hL : 1e20 ≤ dL) (hR : 1e20 ≤ dR)
    (hagree : ∀ x t js jx n tn sd, solver' x t js jx n tn sd = solver x t js jx n tn sd ∨
      (1e20 ≤ solver x t js jx n tn sd ∧ 1e20 ≤ solver' x t js jx n tn sd)) :
    hit_jaws_with_defaults T solver' part cg record dL dR =
        hit_jaws_check_and_transform T solver part cg record ∧
      (hit_jaws_check_and_transform T solver part cg record).is_hit =
        resolve_optional (optional_s_L solver part cg) (optional_s_R solver part cg) := by
  have h21 : (1e20 : α) ≤ 1e21 := by norm_num
  have hA : s_L_with solver' part cg dL = s_L_with solver part cg 1e21 ∨
      (1e20 ≤ s_L_with solver part cg 1e21 ∧ 1e20 ≤ s_L_with solver' part cg dL) := by
    unfold s_L_with
    split_ifs
    · exact Or.inr ⟨h21, hL⟩
    · exact hagree _ _ _ _ _ _ _
  have hB : s_R_with solver' part cg dR = s_R_with solver part cg 1e21 ∨
      (1e20 ≤ s_R_with solver part cg 1e21 ∧ 1e20 ≤ s_R_with solver' part cg dR) := by
    unfold s_R_with right_crossing
    split_ifs
    · exact Or.inr ⟨h21, hR⟩
    · exact hagree _ _ _ _ _ _ _
  have hi : (jaw_checks_with solver' part cg dL dR).is_hit =
      (jaw_checks_with solver part cg 1e21 1e21).is_hit := by
    rw [jaw_checks_is_hit, jaw_checks_is_hit]
    exact resolve_agree cg.side _ _ _ _ hA hB
  have hp : (hit_jaws_with_defaults T solver' part cg record dL dR).part =
      (hit_jaws_with_defaults T solver part cg record 1e21 1e21).part := by
    rcases is_hit_cases solver part cg 1e21 1e21 with h | h | h
    · rw [hit_with_part_none T solver part cg record _ _ h,
        hit_with_part_none T solver' part cg record _ _ (hi.trans h)]
    · have hv := (is_hit_left solver part cg 1e21 1e21 h).2
      have e : s_L_with solver' part cg dL = s_L_with solver part cg 1e21 := by
        rcases hA with hA | ⟨hA, -⟩
        · exact hA
        · exact absurd hv (not_lt.mpr hA)
      rw [hit_with_part_left T solver part cg record _ _ h,
        hit_with_part_left T solver' part cg record _ _ (hi.trans h), e]
    · have hv := (is_hit_right solver part cg 1e21 1e21 h).2.1
      have e : s_R_with solver' part cg dR = s_R_with solver part cg 1e21 := by
        rcases hB with hB | ⟨hB, -⟩
        · exact hB
        · exact absurd hv (not_lt.mpr hB)
      rw [hit_with_part_right T solver part cg record _ _ h,
        hit_with_part_right T solver' part cg record _ _ (hi.trans h), e]
  constructor
  · rw [hit_jaws_eq_with]
    apply hit_result_eq
    · rw [hit_with_is_hit, hit_with_is_hit, hi]
    · exact hp
    · rw [hit_with_record, hit_with_record, hi, hp]
  · rw [hit_is_hit]
    unfold optional_s_L optional_s_R optional_distance resolve_optional s_L_of s_R_of
    by_cases h1 : cg.side = 1
    · have hm : ¬ cg.side = -1 := by rw [h1]; decide
      by_cases hv : left_crossing solver part cg < 1e20 <;> simp [h1, hv]
    · by_cases hm : cg.side = -1
      · by_cases hw : right_crossing solver part cg < 1e20
        · have : right_crossing solver part cg < 1e21 := lt_of_lt_of_le hw h21
          simp [hm, hw, this]
        · simp [hm, hw]
      · by_cases hv : left_crossing solver part cg < 1e20 <;>
        by_cases hw : right_crossing solver part cg < 1e20 <;>
        simp [h1, hm, hv, hw]
        · exact lt_of_lt_of_le hw (not_lt.mp hv)

/-- Witness for C14: on the sample collimator the sentinel `1.5e20` in place of `1e21`,
as solver result and as initial values. -/
theorem sentinel_independence_witness :
    hit_jaws_with_defaults trig_sample solver_far part_sample cg_sample [] 1.5e20 1.5e20 =
      hit_jaws_check_and_transform trig_sample solver_none part_sample cg_sample [] :=
  (sentinel_independence trig_sample solver_none solver_far part_sample cg_sample []
    1.5e20 1.5e20 (by norm_num) (by norm_num)
    (by intros; right; norm_num [solver_none, solver_far])).1

/-! ## The jaw polygons -/

end Theorems

end Xcoll
